import Mathlib

/-!
Shallow embedding of the reconnecting websocket wrapper
(`src/unnamed/part_000`, the variant with message buffering and
url-resolver support; `src/src/index.js` is an older revision of the
same module).

Modelling conventions:
* Timers (`setTimeout` / `setInterval`) are modelled as a list of pending
  timer records carrying a fresh id, a kind, and the millisecond argument
  they were scheduled with.  `clearTimeout h` removes the pending timer
  whose id is `h`; clearing a stale or absent handle is a no-op, exactly
  as in the runtime.  The module-level variables that hold the most
  recent handle of each kind are modelled as `Option Nat` fields; they
  are not reset on clear, mirroring the JS variables.
* The single `ws` variable holds at most one transport handle, with its
  ready state and whether the module's listeners are still attached
  (`removeAllListeners` detaches them).  `ws.close` on a not-yet-open
  socket throws and is swallowed in the source; the model treats
  teardown as effective in every case, i.e. a handle that `cleanup` has
  processed is CLOSING and never becomes OPEN.
* Url resolution is asynchronous in the source (`url()` may return a
  promise).  The model keeps a boolean `resolvePending`; the promise
  settling (successfully with a valid url, or failing) are separate
  actions, so a settlement can arrive at any later point, in particular
  after a permanent close.
* Emitted events and transport calls are recorded in an effect trace.
  The event emitter (eventemitter3, an external collaborator) is
  modelled with standard observer semantics: an ordered list of
  (event, handler) subscriptions, `on` appending, `emit` invoking the
  matching handlers in order, `removeAllListeners` clearing the list.
  Handlers are identified by numbers, payloads by numbers.
* All arithmetic on delays is exact (`Nat`); the validated settings are
  positive integers and the computed delay is capped at
  `maxReconnectDelay` on every advance, so the values stay in the exact
  range of JS numbers.
-/

namespace WsReconnect

inductive ReadyState
  | CONNECTING
  | OPEN
  | CLOSING
  | CLOSED
  deriving DecidableEq

structure Ws where
  readyState : ReadyState
  listeners : Bool
  deriving DecidableEq

inductive TimerKind
  | connTimeout
  | hbInterval
  | hbTimeout
  | reconnectTimer
  deriving DecidableEq

structure Timer where
  id : Nat
  kind : TimerKind
  delayMs : Nat
  deriving DecidableEq

structure Settings where
  connectionTimeout : Nat
  heartbeatInterval : Nat
  heartbeatTimeout : Nat
  maxReconnectDelay : Nat
  messageBuffering : Bool
  minReconnectDelay : Nat
  reconnectDelayMultiplier : Nat
  deriving DecidableEq

/-- The default settings record of the source module. -/
def defaultSettings : Settings where
  connectionTimeout := 5000
  heartbeatInterval := 15000
  heartbeatTimeout := 5000
  maxReconnectDelay := 300000
  messageBuffering := true
  minReconnectDelay := 1000
  reconnectDelayMultiplier := 2

inductive Ev
  | evOpen
  | evMessage
  | evError
  | evClose
  deriving DecidableEq

inductive ErrReason
  | connTimeoutErr
  | hbTimeoutErr
  | urlResolveErr
  | transportErr
  deriving DecidableEq

/-- Observable effects: emissions on the module's emitter and calls into
the transport handle. -/
inductive Eff
  | emitOpen
  | emitMessage (m : Nat)
  | emitError (r : ErrReason)
  | emitClose (code : Nat) (willReconnect : Bool)
  | wsSend (m : Nat)
  | wsPing
  | wsCloseCall (code : Nat)
  deriving DecidableEq

/-- Module state: the closure variables of the constructor. -/
structure St where
  settings : Settings
  nextId : Nat
  pending : List Timer
  connectionTimeout : Option Nat
  heartbeatInterval : Option Nat
  heartbeatTimeout : Option Nat
  reconnectTimeout : Option Nat
  reconnectDelay : Nat
  ws : Option Ws
  isClosed : Bool
  shouldIgnorePongs : Bool
  msgBuffer : List Nat
  resolvePending : Bool
  emitter : List (Ev × Nat)
  deriving DecidableEq

/-- Standard observer semantics of the external emitter: `on` appends a
subscription. -/
def emitterOn (l : List (Ev × Nat)) (ev : Ev) (h : Nat) : List (Ev × Nat) :=
  l ++ [(ev, h)]

/-- Standard observer semantics: a genuine unsubscribe removes the
matching subscriptions. -/
def emitterRemove (l : List (Ev × Nat)) (ev : Ev) (h : Nat) : List (Ev × Nat) :=
  l.filter (fun p => decide (¬ (p.1 = ev ∧ p.2 = h)))

/-- Handlers invoked when an event is emitted, in subscription order. -/
def emitterEmit (l : List (Ev × Nat)) (ev : Ev) : List Nat :=
  (l.filter (fun p => decide (p.1 = ev))).map (fun p => p.2)

/-- The returned handle wires its removeListener field to `emitter.on`
(source line: removeListener: emitter.on.bind(emitter)). -/
def handleRemoveListener (l : List (Ev × Nat)) (ev : Ev) (h : Nat) : List (Ev × Nat) :=
  emitterOn l ev h

/-- Source `isOpen`: there is a ws handle and its readyState is OPEN. -/
def isOpen (s : St) : Bool :=
  match s.ws with
  | some w => decide (w.readyState = ReadyState.OPEN)
  | none => false

/-- Source `send`: forward when open, buffer when enabled, else drop. -/
def send (s : St) (body : Nat) : St × List Eff :=
  if isOpen s then
    (s, [Eff.wsSend body])
  else if s.settings.messageBuffering then
    ({ s with msgBuffer := s.msgBuffer ++ [body] }, [])
  else
    (s, [])

/-- Source `ping`: ping only when open. -/
def ping (s : St) : List Eff :=
  if isOpen s then [Eff.wsPing] else []

/-- `setTimeout` / `setInterval`: register a fresh pending timer and
return its handle. -/
def setTimer (s : St) (k : TimerKind) (delayMs : Nat) : St × Nat :=
  ({ s with
      nextId := s.nextId + 1
      pending := s.pending ++ [{ id := s.nextId, kind := k, delayMs := delayMs }] },
   s.nextId)

/-- `clearTimeout` / `clearInterval` on an optional handle: drop the
pending timer with that id, a no-op for a stale or absent handle. -/
def clearTimer (s : St) (h : Option Nat) : St :=
  { s with pending := s.pending.filter (fun t => decide (some t.id ≠ h)) }

/-- Drop a fired one-shot timer from the pending list. -/
def removeTimer (s : St) (i : Nat) : St :=
  { s with pending := s.pending.filter (fun t => decide (t.id ≠ i)) }

/-- The `forEach(send)` drain loop, in list order. -/
def sendAll (s : St) : List Nat → St × List Eff
  | [] => (s, [])
  | m :: rest =>
    let p1 := send s m
    let p2 := sendAll p1.1 rest
    (p2.1, p1.2 ++ p2.2)

/-- Source `onOpen`: clear the connection timeout, start the heartbeat
interval, reset the backoff delay, drain the message buffer through
`send`, emit open. -/
def onOpen (s : St) : St × List Eff :=
  let s1 := clearTimer s s.connectionTimeout
  let p2 := setTimer s1 TimerKind.hbInterval s1.settings.heartbeatInterval
  let s3 := { p2.1 with
      heartbeatInterval := some p2.2
      reconnectDelay := p2.1.settings.minReconnectDelay }
  let clone := s3.msgBuffer
  let s4 := { s3 with msgBuffer := [] }
  let p5 := sendAll s4 clone
  (p5.1, p5.2 ++ [Eff.emitOpen])

/-- Source `onMessage`: pass the payload through. -/
def onMessage (s : St) (m : Nat) : St × List Eff :=
  (s, [Eff.emitMessage m])

/-- Source `onPong`: ignore when the test flag is set, otherwise clear
the heartbeat timeout. -/
def onPong (s : St) : St × List Eff :=
  if s.shouldIgnorePongs then (s, [])
  else (clearTimer s s.heartbeatTimeout, [])

/-- Source `onError`: surface the transport error. -/
def onError (s : St) : St × List Eff :=
  (s, [Eff.emitError ErrReason.transportErr])

/-- Source `cleanup`: clear the four tracked timer handles, detach the
ws listeners and close the handle (a throw from closing a
not-yet-open socket is swallowed; the model treats the handle as
closing). -/
def cleanup (s : St) (code : Nat) : St × List Eff :=
  let s1 := clearTimer s s.connectionTimeout
  let s2 := clearTimer s1 s1.heartbeatTimeout
  let s3 := clearTimer s2 s2.heartbeatInterval
  let s4 := clearTimer s3 s3.reconnectTimeout
  match s4.ws with
  | none => (s4, [])
  | some _ =>
    ({ s4 with ws := some { readyState := ReadyState.CLOSING, listeners := false } },
     [Eff.wsCloseCall code])

/-- Source `reconnect`: cleanup, schedule `connect` after the current
(pre-advance) delay, then advance the delay. -/
def reconnect (s : St) (code : Nat) : St × List Eff :=
  let p1 := cleanup s code
  let p2 := setTimer p1.1 TimerKind.reconnectTimer p1.1.reconnectDelay
  ({ p2.1 with
      reconnectTimeout := some p2.2
      reconnectDelay :=
        min (p2.1.reconnectDelay * p2.1.settings.reconnectDelayMultiplier)
          p2.1.settings.maxReconnectDelay },
   p1.2)

/-- Source `onClose` (ws close listener): reconnect with the default
code, then emit close with willReconnect true. -/
def onClose (s : St) (code : Nat) : St × List Eff :=
  let p1 := reconnect s 1000
  (p1.1, p1.2 ++ [Eff.emitClose code true])

/-- Source `connect`: kick off a fresh url resolution. -/
def connect (s : St) : St :=
  { s with resolvePending := true }

/-- The resolution success continuation (the then-branch of `connect`):
discarded when permanently closed, otherwise creates the ws handle
with listeners attached and starts the connection timeout. -/
def resolveOk (s : St) : St × List Eff :=
  if s.resolvePending then
    let s0 := { s with resolvePending := false }
    if s0.isClosed then (s0, [])
    else
      let s1 := { s0 with ws := some { readyState := ReadyState.CONNECTING, listeners := true } }
      let p2 := setTimer s1 TimerKind.connTimeout s1.settings.connectionTimeout
      ({ p2.1 with connectionTimeout := some p2.2 }, [])
  else (s, [])

/-- The resolution failure continuation (the catch-branch of `connect`):
discarded when permanently closed, otherwise reconnect and emit the
resolution error. -/
def resolveFail (s : St) : St × List Eff :=
  if s.resolvePending then
    let s0 := { s with resolvePending := false }
    if s0.isClosed then (s0, [])
    else
      let p1 := reconnect s0 1000
      (p1.1, p1.2 ++ [Eff.emitError ErrReason.urlResolveErr])
  else (s, [])

/-- The connection-timeout callback body. -/
def onConnTimeout (s : St) : St × List Eff :=
  let p1 := reconnect s 1000
  (p1.1, p1.2 ++ [Eff.emitError ErrReason.connTimeoutErr])

/-- The heartbeat-timeout callback body. -/
def onHbTimeout (s : St) : St × List Eff :=
  let p1 := reconnect s 1000
  (p1.1, p1.2 ++ [Eff.emitError ErrReason.hbTimeoutErr])

/-- The heartbeat-interval tick: start a heartbeat-timeout timer (the
source does not clear a previous one here) and ping. -/
def hbTick (s : St) : St × List Eff :=
  let p1 := setTimer s TimerKind.hbTimeout s.settings.heartbeatTimeout
  let s2 := { p1.1 with heartbeatTimeout := some p1.2 }
  (s2, ping s2)

/-- Source `close`: idempotent permanent shutdown. -/
def close (s : St) (code : Nat) : St × List Eff :=
  if s.isClosed then (s, [])
  else
    let p1 := cleanup s code
    ({ p1.1 with emitter := [], isClosed := true }, p1.2)

/-- Source `ignorePongs` (test-only flag). -/
def ignorePongs (s : St) : St :=
  { s with shouldIgnorePongs := true }

/-- Firing a pending timer by id: a one-shot timer is consumed, an
interval stays pending; an id that is not pending does nothing. -/
def fireTimer (s : St) (i : Nat) : St × List Eff :=
  match s.pending.find? (fun t => decide (t.id = i)) with
  | none => (s, [])
  | some t =>
    match t.kind with
    | TimerKind.connTimeout => onConnTimeout (removeTimer s i)
    | TimerKind.hbTimeout => onHbTimeout (removeTimer s i)
    | TimerKind.reconnectTimer => (connect (removeTimer s i), [])
    | TimerKind.hbInterval => hbTick s

/-- Whether the module's listeners are attached to the current handle. -/
def wsListening (s : St) : Bool :=
  match s.ws with
  | some w => w.listeners
  | none => false

/-- Transport open event: the handle leaves CONNECTING for OPEN; the
module's onOpen runs only if its listeners are attached. -/
def fireWsOpen (s : St) : St × List Eff :=
  match s.ws with
  | some w =>
    if w.readyState = ReadyState.CONNECTING then
      let s1 := { s with ws := some { w with readyState := ReadyState.OPEN } }
      if w.listeners then onOpen s1 else (s1, [])
    else (s, [])
  | none => (s, [])

/-- Transport message event: dispatched only when listeners are attached. -/
def fireWsMessage (s : St) (m : Nat) : St × List Eff :=
  if wsListening s then onMessage s m else (s, [])

/-- Transport pong event: dispatched only when listeners are attached. -/
def fireWsPong (s : St) : St × List Eff :=
  if wsListening s then onPong s else (s, [])

/-- Transport error event: dispatched only when listeners are attached. -/
def fireWsError (s : St) : St × List Eff :=
  if wsListening s then onError s else (s, [])

/-- Transport close event: the handle becomes CLOSED (the event fires at
most once); the module's onClose runs only if listeners are attached. -/
def fireWsClose (s : St) (code : Nat) : St × List Eff :=
  match s.ws with
  | some w =>
    if w.readyState = ReadyState.CLOSED then (s, [])
    else
      let s1 := { s with ws := some { w with readyState := ReadyState.CLOSED } }
      if w.listeners then onClose s1 code else (s1, [])
  | none => (s, [])

/-- The actions that drive the controller: public handle calls, timer
firings, url-resolution settlement, and transport events. -/
inductive Act
  | actSend (m : Nat)
  | actReconnect (code : Nat)
  | actClose (code : Nat)
  | actIgnorePongs
  | actOn (ev : Ev) (h : Nat)
  | fireTimerAct (i : Nat)
  | settleOk
  | settleFail
  | wsOpenEv
  | wsMessageEv (m : Nat)
  | wsPongEv
  | wsErrorEv
  | wsCloseEv (code : Nat)
  deriving DecidableEq

def step (s : St) : Act → St × List Eff
  | Act.actSend m => send s m
  | Act.actReconnect code => reconnect s code
  | Act.actClose code => close s code
  | Act.actIgnorePongs => (ignorePongs s, [])
  | Act.actOn ev h => ({ s with emitter := emitterOn s.emitter ev h }, [])
  | Act.fireTimerAct i => fireTimer s i
  | Act.settleOk => resolveOk s
  | Act.settleFail => resolveFail s
  | Act.wsOpenEv => fireWsOpen s
  | Act.wsMessageEv m => fireWsMessage s m
  | Act.wsPongEv => fireWsPong s
  | Act.wsErrorEv => fireWsError s
  | Act.wsCloseEv code => fireWsClose s code

/-- The state right after the constructor ran: `connect()` has been
called, so a url resolution is in flight. -/
def init (stg : Settings) : St where
  settings := stg
  nextId := 0
  pending := []
  connectionTimeout := none
  heartbeatInterval := none
  heartbeatTimeout := none
  reconnectTimeout := none
  reconnectDelay := stg.minReconnectDelay
  ws := none
  isClosed := false
  shouldIgnorePongs := false
  msgBuffer := []
  resolvePending := true
  emitter := []

inductive Reachable (stg : Settings) : St → Prop
  | init : Reachable stg (init stg)
  | step (s : St) (a : Act) : Reachable stg s → Reachable stg (step s a).1

/-- Run a list of actions, accumulating effects. -/
def runActs (s : St) : List Act → St × List Eff
  | [] => (s, [])
  | a :: rest =>
    let p1 := step s a
    let p2 := runActs p1.1 rest
    (p2.1, p1.2 ++ p2.2)

/-- Number of timers of a given kind in a timer list. -/
def countKindL (l : List Timer) (k : TimerKind) : Nat :=
  (l.filter (fun t => decide (t.kind = k))).length

/-- Number of pending timers of a given kind. -/
def countKind (s : St) (k : TimerKind) : Nat :=
  countKindL s.pending k

/-- A quiescent transport handle: either absent, or detached from the
module's listeners and neither connecting nor open. -/
def wsQuietB (s : St) : Bool :=
  match s.ws with
  | none => true
  | some w =>
    !w.listeners
      && !(decide (w.readyState = ReadyState.CONNECTING))
      && !(decide (w.readyState = ReadyState.OPEN))

/-- Small valid settings used for the concrete scenarios below; all
fields are positive integers as the settings schema requires, with the
heartbeat interval shorter than the heartbeat timeout. -/
def cxSettings : Settings where
  connectionTimeout := 100
  heartbeatInterval := 1
  heartbeatTimeout := 3
  maxReconnectDelay := 8
  messageBuffering := true
  minReconnectDelay := 1
  reconnectDelayMultiplier := 2

/-- Scenario: connect, open, then two heartbeat interval ticks with no
intervening pong (interval 1 is the heartbeat interval timer). -/
def c5state : St :=
  (runActs (init cxSettings)
    [Act.settleOk, Act.wsOpenEv, Act.fireTimerAct 1, Act.fireTimerAct 1]).1

/-- Scenario: as in the two-tick run, followed by a permanent close. -/
def c6state : St :=
  (runActs (init cxSettings)
    [Act.settleOk, Act.wsOpenEv, Act.fireTimerAct 1, Act.fireTimerAct 1,
     Act.actClose 1000]).1

/-- Scenario: the two-tick run followed by a permanent close, leaving
the superseded heartbeat-timeout timer (id 2) pending. -/
def c7state : St :=
  (runActs (init cxSettings)
    [Act.settleOk, Act.wsOpenEv, Act.fireTimerAct 1, Act.fireTimerAct 1,
     Act.actClose 1000]).1

/-- Scenario: a reconnect requested while the initial url resolution is
in flight, the resolution settling, the scheduled reconnect firing and
its own resolution settling: two connection-timeout timers pending. -/
def connDupState : St :=
  (runActs (init cxSettings)
    [Act.actReconnect 1000, Act.settleOk, Act.fireTimerAct 0, Act.settleOk]).1

/-- Scenario: an open connection with a close subscriber. -/
def c4state : St :=
  (runActs (init defaultSettings)
    [Act.settleOk, Act.wsOpenEv, Act.actOn Ev.evClose 5]).1

/-- Scenario: an open connection (for the heartbeat witness). -/
def c2state : St :=
  (runActs (init defaultSettings) [Act.settleOk, Act.wsOpenEv]).1

/-- Scenario: a connecting, not yet open handle (for the buffering
witness). -/
def c3state : St :=
  (runActs (init defaultSettings) [Act.settleOk]).1

/-- Scenario: an open, not yet closed controller (for the close
idempotence witness). -/
def c6wstate : St :=
  (runActs (init defaultSettings) [Act.settleOk, Act.wsOpenEv]).1

/-- Scenario: a freshly closed controller. -/
def c7wstate : St :=
  (runActs (init defaultSettings) [Act.actClose 1000]).1

/-- Scenario: a closed controller (for the buffer-persistence witness). -/
def c10state : St :=
  (runActs (init defaultSettings) [Act.actClose 1000]).1

/-- Scenario: an open connection whose heartbeat interval has ticked
once, so a heartbeat-timeout timer (id 2) is pending. -/
def c1wstate : St :=
  (runActs (init defaultSettings) [Act.settleOk, Act.wsOpenEv]).1

/-- Reconnect-timer discipline: every pending reconnect-delay timer is
the one tracked by the reconnectTimeout variable, and at most one is
pending. -/
def RInvP (s : St) : Prop :=
  (∀ t ∈ s.pending, t.kind = TimerKind.reconnectTimer →
    some t.id = s.reconnectTimeout)
  ∧ countKind s TimerKind.reconnectTimer ≤ 1

/-- Freshness of timer handles: every pending timer id is below the
allocation counter. -/
def IdsBP (s : St) : Prop :=
  ∀ t ∈ s.pending, t.id < s.nextId

/-- Heartbeat property bundle: the behaviour of one heartbeat interval
tick on a state s, of the heartbeat-timeout timer it starts, and of a
pong reply. -/
def HeartbeatSpec (s : St) : Prop :=
  (hbTick s).1.pending
      = s.pending
        ++ [{ id := s.nextId, kind := TimerKind.hbTimeout,
              delayMs := s.settings.heartbeatTimeout }]
  ∧ (hbTick s).1.heartbeatTimeout = some s.nextId
  ∧ (hbTick s).2 = [Eff.wsPing]
  ∧ fireTimer (hbTick s).1 s.nextId = onHbTimeout (removeTimer (hbTick s).1 s.nextId)
  ∧ (∃ e, (fireTimer (hbTick s).1 s.nextId).2 = e ++ [Eff.emitError ErrReason.hbTimeoutErr])
  ∧ wsListening (fireTimer (hbTick s).1 s.nextId).1 = false
  ∧ countKind (fireTimer (hbTick s).1 s.nextId).1 TimerKind.reconnectTimer = 1
  ∧ onPong (hbTick s).1 = (clearTimer (hbTick s).1 (some s.nextId), [])
  ∧ (onPong (hbTick s).1).1.pending.find? (fun t => decide (t.id = s.nextId)) = none
  ∧ fireTimer (onPong (hbTick s).1).1 s.nextId = ((onPong (hbTick s).1).1, [])
  ∧ onPong (ignorePongs (hbTick s).1) = (ignorePongs (hbTick s).1, [])

/-- Close property bundle: idempotent one-shot shutdown; the first call
flips the flag, empties the emitter, detaches the handle and cancels
every timer whose handle is tracked by one of the four timer
variables; a second call does nothing. -/
def CloseSpec (s : St) (c c2 : Nat) : Prop :=
  (s.isClosed = true → close s c = (s, []))
  ∧ (close s c).1.isClosed = true
  ∧ (s.isClosed = false →
      (close s c).1.emitter = []
      ∧ wsListening (close s c).1 = false
      ∧ (∀ t ∈ (close s c).1.pending,
          some t.id ≠ s.connectionTimeout
          ∧ some t.id ≠ s.heartbeatTimeout
          ∧ some t.id ≠ s.heartbeatInterval
          ∧ some t.id ≠ s.reconnectTimeout))
  ∧ close (close s c).1 c2 = ((close s c).1, [])

/-- Permanently-closed property bundle: settlement of a url resolution
after close is discarded by the isClosed check, closedness is
preserved by every action, and a closed controller is never open. -/
def ClosedSpec (s : St) : Prop :=
  resolveOk s = ({ s with resolvePending := false }, [])
  ∧ resolveFail s = ({ s with resolvePending := false }, [])
  ∧ (∀ a : Act, (step s a).1.isClosed = true)
  ∧ isOpen s = false
  ∧ (∀ a : Act, isOpen (step s a).1 = false)

/-- Buffer-persistence property bundle for a permanently closed
controller: a buffered send still appends, and no action ever drains
the buffer. -/
def BufferClosedSpec (s : St) : Prop :=
  (s.settings.messageBuffering = true →
    ∀ m : Nat, send s m = ({ s with msgBuffer := s.msgBuffer ++ [m] }, []))
  ∧ (∀ a : Act, ∃ tail, (step s a).1.msgBuffer = s.msgBuffer ++ tail)

/-- The default settings with message buffering turned off. -/
def noBufSettings : Settings :=
  { defaultSettings with messageBuffering := false }

/-- Scenario: a controller constructed with buffering disabled, before
any connection opened. -/
def c9state : St := init noBufSettings

theorem runActs_cons (s : St) (a : Act) (rest : List Act) :
    (runActs s (a :: rest)).1 = (runActs (step s a).1 rest).1 := rfl

theorem reachable_runActs (stg : Settings) (s : St) (h : Reachable stg s)
    (acts : List Act) : Reachable stg (runActs s acts).1 := by
  induction acts generalizing s with
  | nil => exact h
  | cons a rest ih =>
    rw [runActs_cons]
    exact ih (step s a).1 (Reachable.step s a h)

theorem send_frame (s : St) (m : Nat) :
    ∃ b, (send s m).1 = { s with msgBuffer := b } := by
  by_cases h1 : isOpen s
  · exact ⟨s.msgBuffer, by simp [send, h1]⟩
  · by_cases h2 : s.settings.messageBuffering
    · exact ⟨s.msgBuffer ++ [m], by simp [send, h1, h2]⟩
    · exact ⟨s.msgBuffer, by simp [send, h1, h2]⟩

theorem sendAll_frame (ms : List Nat) :
    ∀ s : St, ∃ b, (sendAll s ms).1 = { s with msgBuffer := b } := by
  induction ms with
  | nil => exact fun s => ⟨s.msgBuffer, rfl⟩
  | cons m rest ih =>
    intro s
    obtain ⟨b1, h1⟩ := send_frame s m
    obtain ⟨b2, h2⟩ := ih (send s m).1
    refine ⟨b2, ?_⟩
    show (sendAll (send s m).1 rest).1 = _
    rw [h2, h1]

theorem sendAll_settings (s : St) (ms : List Nat) :
    (sendAll s ms).1.settings = s.settings := by
  obtain ⟨b, h⟩ := sendAll_frame ms s; rw [h]

theorem sendAll_isClosed (s : St) (ms : List Nat) :
    (sendAll s ms).1.isClosed = s.isClosed := by
  obtain ⟨b, h⟩ := sendAll_frame ms s; rw [h]

theorem sendAll_ws (s : St) (ms : List Nat) :
    (sendAll s ms).1.ws = s.ws := by
  obtain ⟨b, h⟩ := sendAll_frame ms s; rw [h]

theorem sendAll_pending (s : St) (ms : List Nat) :
    (sendAll s ms).1.pending = s.pending := by
  obtain ⟨b, h⟩ := sendAll_frame ms s; rw [h]

theorem sendAll_nextId (s : St) (ms : List Nat) :
    (sendAll s ms).1.nextId = s.nextId := by
  obtain ⟨b, h⟩ := sendAll_frame ms s; rw [h]

theorem sendAll_reconnectDelay (s : St) (ms : List Nat) :
    (sendAll s ms).1.reconnectDelay = s.reconnectDelay := by
  obtain ⟨b, h⟩ := sendAll_frame ms s; rw [h]

theorem sendAll_reconnectTimeout (s : St) (ms : List Nat) :
    (sendAll s ms).1.reconnectTimeout = s.reconnectTimeout := by
  obtain ⟨b, h⟩ := sendAll_frame ms s; rw [h]

theorem sendAll_heartbeatTimeout (s : St) (ms : List Nat) :
    (sendAll s ms).1.heartbeatTimeout = s.heartbeatTimeout := by
  obtain ⟨b, h⟩ := sendAll_frame ms s; rw [h]

theorem sendAll_heartbeatInterval (s : St) (ms : List Nat) :
    (sendAll s ms).1.heartbeatInterval = s.heartbeatInterval := by
  obtain ⟨b, h⟩ := sendAll_frame ms s; rw [h]

theorem sendAll_connectionTimeout (s : St) (ms : List Nat) :
    (sendAll s ms).1.connectionTimeout = s.connectionTimeout := by
  obtain ⟨b, h⟩ := sendAll_frame ms s; rw [h]

theorem sendAll_resolvePending (s : St) (ms : List Nat) :
    (sendAll s ms).1.resolvePending = s.resolvePending := by
  obtain ⟨b, h⟩ := sendAll_frame ms s; rw [h]

theorem sendAll_shouldIgnorePongs (s : St) (ms : List Nat) :
    (sendAll s ms).1.shouldIgnorePongs = s.shouldIgnorePongs := by
  obtain ⟨b, h⟩ := sendAll_frame ms s; rw [h]

theorem sendAll_emitter (s : St) (ms : List Nat) :
    (sendAll s ms).1.emitter = s.emitter := by
  obtain ⟨b, h⟩ := sendAll_frame ms s; rw [h]

theorem send_effects (s : St) (m : Nat) :
    ∀ e ∈ (send s m).2, e = Eff.wsSend m := by
  intro e he
  by_cases h1 : isOpen s
  · simp [send, h1] at he; exact he
  · by_cases h2 : s.settings.messageBuffering <;> simp [send, h1, h2] at he

theorem sendAll_effects (ms : List Nat) :
    ∀ s : St, ∀ e ∈ (sendAll s ms).2, ∃ m, e = Eff.wsSend m := by
  induction ms with
  | nil => intro s e he; simp [sendAll] at he
  | cons m rest ih =>
    intro s e he
    have : (sendAll s (m :: rest)).2 = (send s m).2 ++ (sendAll (send s m).1 rest).2 := rfl
    rw [this] at he
    rcases List.mem_append.mp he with h | h
    · exact ⟨m, send_effects s m e h⟩
    · exact ih (send s m).1 e h

theorem isOpen_setBuffer (s : St) (b : List Nat) :
    isOpen { s with msgBuffer := b } = isOpen s := rfl

theorem sendAll_open (ms : List Nat) :
    ∀ s : St, isOpen s = true → sendAll s ms = (s, ms.map Eff.wsSend) := by
  induction ms with
  | nil => intro s _; rfl
  | cons m rest ih =>
    intro s hs
    have hsend : send s m = (s, [Eff.wsSend m]) := by simp [send, hs]
    simp [sendAll, hsend, ih s hs]

theorem sendAll_buffering (ms : List Nat) :
    ∀ s : St, isOpen s = false → s.settings.messageBuffering = true →
      sendAll s ms = ({ s with msgBuffer := s.msgBuffer ++ ms }, []) := by
  induction ms with
  | nil => intro s _ _; simp [sendAll]
  | cons m rest ih =>
    intro s hs hb
    have hsend : send s m = ({ s with msgBuffer := s.msgBuffer ++ [m] }, []) := by
      simp [send, hs, hb]
    have hrest := ih { s with msgBuffer := s.msgBuffer ++ [m] } hs hb
    simp [sendAll, hsend, hrest]

/-- C9: with message buffering disabled, a send while no connection is
open is silently dropped: the state is unchanged, no effect (neither a
transmission nor an error) is produced, and every later run behaves
exactly as if the send had never happened, so the payload is never
transmitted even after a later successful open. -/
theorem c9_drop_when_disabled (s : St) (m : Nat) (acts : List Act)
    (hopen : isOpen s = false)
    (hbuf : s.settings.messageBuffering = false) :
    send s m = (s, []) ∧ runActs (send s m).1 acts = runActs s acts := by
  have h : send s m = (s, []) := by simp [send, hopen, hbuf]
  exact ⟨h, by rw [h]⟩

theorem c9_drop_when_disabled_witness :
    isOpen c9state = false
    ∧ c9state.settings.messageBuffering = false
    ∧ (send c9state 42 = (c9state, [])
       ∧ runActs (send c9state 42).1 [Act.settleOk, Act.wsOpenEv]
           = runActs c9state [Act.settleOk, Act.wsOpenEv]) :=
  ⟨by decide, by decide,
   c9_drop_when_disabled c9state 42 [Act.settleOk, Act.wsOpenEv] (by decide) (by decide)⟩

/-- C8: the handle returned by the constructor binds its removeListener
field to emitter.on, so removeListener subscribes the handler again
instead of unsubscribing it: after on followed by removeListener the
handler is invoked twice on emit, while a genuine removal would leave
it uninvoked. -/
theorem c8_removeListener_is_on :
    handleRemoveListener (emitterOn [] Ev.evMessage 7) Ev.evMessage 7
      = [(Ev.evMessage, 7), (Ev.evMessage, 7)]
    ∧ emitterEmit (handleRemoveListener (emitterOn [] Ev.evMessage 7) Ev.evMessage 7)
        Ev.evMessage = [7, 7]
    ∧ emitterEmit (emitterRemove (emitterOn [] Ev.evMessage 7) Ev.evMessage 7)
        Ev.evMessage = [] := by
  decide

/-- C5 counterexample: in the reachable state after a connect, an open,
and two heartbeat-interval ticks (heartbeat interval 1, heartbeat
timeout 3, no pong in between), two heartbeat-timeout timers are
outstanding at once: the tick does not cancel the previous one. -/
theorem c5_counterexample :
    Reachable cxSettings c5state ∧ countKind c5state TimerKind.hbTimeout = 2 :=
  ⟨by unfold c5state; exact reachable_runActs _ _ Reachable.init _, by decide⟩

/-- C6 counterexample: in the same two-tick scenario a permanent close
leaves the superseded heartbeat-timeout timer pending; the first close
call does not tear down all timers. -/
theorem c6_counterexample :
    Reachable cxSettings c6state ∧ c6state.isClosed = true
    ∧ countKind c6state TimerKind.hbTimeout = 1 :=
  ⟨by unfold c6state; exact reachable_runActs _ _ Reachable.init _, by decide, by decide⟩

/-- C7 counterexample: the heartbeat-timeout timer that survived the
permanent close fires afterwards (it has no isClosed guard): it
schedules a reconnect-delay timer, advances the backoff delay from 1
to 2, and emits a heartbeat-timeout error, instead of being discarded
by the permanent-closed check. -/
theorem c7_counterexample :
    Reachable cxSettings c7state ∧ c7state.isClosed = true
    ∧ c7state.reconnectDelay = 1
    ∧ (fireTimer c7state 2).1.reconnectDelay = 2
    ∧ countKind (fireTimer c7state 2).1 TimerKind.reconnectTimer = 1
    ∧ (fireTimer c7state 2).2
        = [Eff.wsCloseCall 1000, Eff.emitError ErrReason.hbTimeoutErr] :=
  ⟨by unfold c7state; exact reachable_runActs _ _ Reachable.init _,
   by decide, by decide, by decide, by decide, by decide⟩

/-- C4 counterexample: from a reachable open state with a close
subscriber, the caller's explicit permanent close produces only the
transport close call: no close event at all is emitted (the emitter's
subscriptions are detached), in particular no close event with
willReconnect false is delivered. -/
theorem c4_counterexample :
    Reachable defaultSettings c4state ∧ c4state.isClosed = false
    ∧ c4state.emitter = [(Ev.evClose, 5)]
    ∧ (close c4state 1000).2 = [Eff.wsCloseCall 1000]
    ∧ (close c4state 1000).1.isClosed = true :=
  ⟨by unfold c4state; exact reachable_runActs _ _ Reachable.init _,
   by decide, by decide, by decide, by decide⟩

theorem countKindL_sublist (l1 l2 : List Timer) (h : List.Sublist l1 l2)
    (k : TimerKind) : countKindL l1 k ≤ countKindL l2 k :=
  (h.filter _).length_le

theorem countKindL_append (l1 l2 : List Timer) (k : TimerKind) :
    countKindL (l1 ++ l2) k = countKindL l1 k + countKindL l2 k := by
  simp [countKindL, List.filter_append]

theorem countKindL_eq_zero (l : List Timer) (k : TimerKind)
    (h : ∀ t ∈ l, t.kind ≠ k) : countKindL l k = 0 := by
  simp only [countKindL, List.length_eq_zero, List.filter_eq_nil_iff]
  intro t ht
  simpa using h t ht

theorem cleanup_settings (s : St) (c : Nat) :
    (cleanup s c).1.settings = s.settings := by
  rcases hw : s.ws with _ | w <;> simp [cleanup, clearTimer, hw]

theorem cleanup_reconnectDelay (s : St) (c : Nat) :
    (cleanup s c).1.reconnectDelay = s.reconnectDelay := by
  rcases hw : s.ws with _ | w <;> simp [cleanup, clearTimer, hw]

theorem cleanup_msgBuffer (s : St) (c : Nat) :
    (cleanup s c).1.msgBuffer = s.msgBuffer := by
  rcases hw : s.ws with _ | w <;> simp [cleanup, clearTimer, hw]

theorem cleanup_isClosed (s : St) (c : Nat) :
    (cleanup s c).1.isClosed = s.isClosed := by
  rcases hw : s.ws with _ | w <;> simp [cleanup, clearTimer, hw]

theorem cleanup_nextId (s : St) (c : Nat) :
    (cleanup s c).1.nextId = s.nextId := by
  rcases hw : s.ws with _ | w <;> simp [cleanup, clearTimer, hw]

theorem cleanup_resolvePending (s : St) (c : Nat) :
    (cleanup s c).1.resolvePending = s.resolvePending := by
  rcases hw : s.ws with _ | w <;> simp [cleanup, clearTimer, hw]

theorem cleanup_emitter (s : St) (c : Nat) :
    (cleanup s c).1.emitter = s.emitter := by
  rcases hw : s.ws with _ | w <;> simp [cleanup, clearTimer, hw]

theorem cleanup_shouldIgnorePongs (s : St) (c : Nat) :
    (cleanup s c).1.shouldIgnorePongs = s.shouldIgnorePongs := by
  rcases hw : s.ws with _ | w <;> simp [cleanup, clearTimer, hw]

theorem cleanup_connectionTimeout (s : St) (c : Nat) :
    (cleanup s c).1.connectionTimeout = s.connectionTimeout := by
  rcases hw : s.ws with _ | w <;> simp [cleanup, clearTimer, hw]

theorem cleanup_heartbeatTimeout (s : St) (c : Nat) :
    (cleanup s c).1.heartbeatTimeout = s.heartbeatTimeout := by
  rcases hw : s.ws with _ | w <;> simp [cleanup, clearTimer, hw]

theorem cleanup_heartbeatInterval (s : St) (c : Nat) :
    (cleanup s c).1.heartbeatInterval = s.heartbeatInterval := by
  rcases hw : s.ws with _ | w <;> simp [cleanup, clearTimer, hw]

theorem cleanup_reconnectTimeout (s : St) (c : Nat) :
    (cleanup s c).1.reconnectTimeout = s.reconnectTimeout := by
  rcases hw : s.ws with _ | w <;> simp [cleanup, clearTimer, hw]

theorem cleanup_pending_sublist (s : St) (c : Nat) :
    List.Sublist (cleanup s c).1.pending s.pending := by
  rcases hw : s.ws with _ | w <;> simp [cleanup, clearTimer, hw]

theorem cleanup_pending_mem (s : St) (c : Nat) :
    ∀ t ∈ (cleanup s c).1.pending, t ∈ s.pending :=
  fun t ht => (cleanup_pending_sublist s c).mem ht

theorem cleanup_pending_vars (s : St) (c : Nat) :
    ∀ t ∈ (cleanup s c).1.pending,
      some t.id ≠ s.connectionTimeout ∧ some t.id ≠ s.heartbeatTimeout
      ∧ some t.id ≠ s.heartbeatInterval ∧ some t.id ≠ s.reconnectTimeout := by
  intro t ht
  rcases hw : s.ws with _ | w <;>
    simp [cleanup, clearTimer, hw, List.mem_filter] at ht <;> tauto

theorem cleanup_wsQuiet (s : St) (c : Nat) : wsQuietB (cleanup s c).1 = true := by
  rcases hw : s.ws with _ | w <;> simp [cleanup, clearTimer, wsQuietB, hw]

theorem cleanup_wsListening (s : St) (c : Nat) :
    wsListening (cleanup s c).1 = false := by
  rcases hw : s.ws with _ | w <;> simp [cleanup, clearTimer, wsListening, hw]

theorem cleanup_isOpen (s : St) (c : Nat) : isOpen (cleanup s c).1 = false := by
  rcases hw : s.ws with _ | w <;> simp [cleanup, clearTimer, isOpen, hw]

theorem cleanup_effects (s : St) (c : Nat) :
    (cleanup s c).2 = [] ∨ (cleanup s c).2 = [Eff.wsCloseCall c] := by
  rcases hw : s.ws with _ | w
  · left; simp [cleanup, clearTimer, hw]
  · right; simp [cleanup, clearTimer, hw]

theorem cleanup_reconnectKind_none (s : St) (c : Nat)
    (hA : ∀ t ∈ s.pending, t.kind = TimerKind.reconnectTimer →
      some t.id = s.reconnectTimeout) :
    ∀ t ∈ (cleanup s c).1.pending, t.kind ≠ TimerKind.reconnectTimer := by
  intro t ht hk
  have hvars := cleanup_pending_vars s c t ht
  have hmem := cleanup_pending_mem s c t ht
  exact hvars.2.2.2 (hA t hmem hk)

theorem reconnect_pending (s : St) (c : Nat) :
    (reconnect s c).1.pending
      = (cleanup s c).1.pending
        ++ [{ id := s.nextId, kind := TimerKind.reconnectTimer,
              delayMs := s.reconnectDelay }] := by
  rcases hw : s.ws with _ | w <;> simp [reconnect, cleanup, clearTimer, setTimer, hw]

theorem reconnect_settings (s : St) (c : Nat) :
    (reconnect s c).1.settings = s.settings := by
  rcases hw : s.ws with _ | w <;> simp [reconnect, cleanup, clearTimer, setTimer, hw]

theorem reconnect_delay (s : St) (c : Nat) :
    (reconnect s c).1.reconnectDelay
      = min (s.reconnectDelay * s.settings.reconnectDelayMultiplier)
          s.settings.maxReconnectDelay := by
  rcases hw : s.ws with _ | w <;> simp [reconnect, cleanup, clearTimer, setTimer, hw]

theorem reconnect_msgBuffer (s : St) (c : Nat) :
    (reconnect s c).1.msgBuffer = s.msgBuffer := by
  rcases hw : s.ws with _ | w <;> simp [reconnect, cleanup, clearTimer, setTimer, hw]

theorem reconnect_isClosed (s : St) (c : Nat) :
    (reconnect s c).1.isClosed = s.isClosed := by
  rcases hw : s.ws with _ | w <;> simp [reconnect, cleanup, clearTimer, setTimer, hw]

theorem reconnect_nextId (s : St) (c : Nat) :
    (reconnect s c).1.nextId = s.nextId + 1 := by
  rcases hw : s.ws with _ | w <;> simp [reconnect, cleanup, clearTimer, setTimer, hw]

theorem reconnect_resolvePending (s : St) (c : Nat) :
    (reconnect s c).1.resolvePending = s.resolvePending := by
  rcases hw : s.ws with _ | w <;> simp [reconnect, cleanup, clearTimer, setTimer, hw]

theorem reconnect_emitter (s : St) (c : Nat) :
    (reconnect s c).1.emitter = s.emitter := by
  rcases hw : s.ws with _ | w <;> simp [reconnect, cleanup, clearTimer, setTimer, hw]

theorem reconnect_shouldIgnorePongs (s : St) (c : Nat) :
    (reconnect s c).1.shouldIgnorePongs = s.shouldIgnorePongs := by
  rcases hw : s.ws with _ | w <;> simp [reconnect, cleanup, clearTimer, setTimer, hw]

theorem reconnect_reconnectTimeout (s : St) (c : Nat) :
    (reconnect s c).1.reconnectTimeout = some s.nextId := by
  rcases hw : s.ws with _ | w <;> simp [reconnect, cleanup, clearTimer, setTimer, hw]

theorem reconnect_connectionTimeout (s : St) (c : Nat) :
    (reconnect s c).1.connectionTimeout = s.connectionTimeout := by
  rcases hw : s.ws with _ | w <;> simp [reconnect, cleanup, clearTimer, setTimer, hw]

theorem reconnect_heartbeatTimeout (s : St) (c : Nat) :
    (reconnect s c).1.heartbeatTimeout = s.heartbeatTimeout := by
  rcases hw : s.ws with _ | w <;> simp [reconnect, cleanup, clearTimer, setTimer, hw]

theorem reconnect_wsQuiet (s : St) (c : Nat) : wsQuietB (reconnect s c).1 = true := by
  rcases hw : s.ws with _ | w <;>
    simp [reconnect, cleanup, clearTimer, setTimer, wsQuietB, hw]

theorem reconnect_wsListening (s : St) (c : Nat) :
    wsListening (reconnect s c).1 = false := by
  rcases hw : s.ws with _ | w <;>
    simp [reconnect, cleanup, clearTimer, setTimer, wsListening, hw]

theorem reconnect_isOpen (s : St) (c : Nat) : isOpen (reconnect s c).1 = false := by
  rcases hw : s.ws with _ | w <;>
    simp [reconnect, cleanup, clearTimer, setTimer, isOpen, hw]

theorem reconnect_effects (s : St) (c : Nat) :
    (reconnect s c).2 = (cleanup s c).2 := by
  rcases hw : s.ws with _ | w <;> simp [reconnect, cleanup, clearTimer, setTimer, hw]

theorem onHbTimeout_fst (s : St) : (onHbTimeout s).1 = (reconnect s 1000).1 := rfl

theorem onConnTimeout_fst (s : St) : (onConnTimeout s).1 = (reconnect s 1000).1 := rfl

theorem onClose_fst (s : St) (c : Nat) : (onClose s c).1 = (reconnect s 1000).1 := rfl

theorem removeTimer_pending_sublist (s : St) (i : Nat) :
    List.Sublist (removeTimer s i).pending s.pending := List.filter_sublist _

theorem clearTimer_pending_sublist (s : St) (h : Option Nat) :
    List.Sublist (clearTimer s h).pending s.pending := List.filter_sublist _

theorem close_of_closed (s : St) (c : Nat) (hc : s.isClosed = true) :
    close s c = (s, []) := by
  simp [close, hc]

theorem close_isClosed (s : St) (c : Nat) : (close s c).1.isClosed = true := by
  by_cases hc : s.isClosed
  · simp [close, hc]
  · simp [close, hc]

theorem close_settings (s : St) (c : Nat) :
    (close s c).1.settings = s.settings := by
  by_cases hc : s.isClosed
  · simp [close, hc]
  · simp [close, hc, cleanup_settings]

theorem close_msgBuffer (s : St) (c : Nat) :
    (close s c).1.msgBuffer = s.msgBuffer := by
  by_cases hc : s.isClosed
  · simp [close, hc]
  · simp [close, hc, cleanup_msgBuffer]

theorem close_reconnectDelay (s : St) (c : Nat) :
    (close s c).1.reconnectDelay = s.reconnectDelay := by
  by_cases hc : s.isClosed
  · simp [close, hc]
  · simp [close, hc, cleanup_reconnectDelay]

theorem close_nextId (s : St) (c : Nat) : (close s c).1.nextId = s.nextId := by
  by_cases hc : s.isClosed
  · simp [close, hc]
  · simp [close, hc, cleanup_nextId]

theorem close_reconnectTimeout (s : St) (c : Nat) :
    (close s c).1.reconnectTimeout = s.reconnectTimeout := by
  by_cases hc : s.isClosed
  · simp [close, hc]
  · simp [close, hc, cleanup_reconnectTimeout]

theorem close_emitter_of_open (s : St) (c : Nat) (hc : s.isClosed = false) :
    (close s c).1.emitter = [] := by
  simp [close, hc]

theorem close_wsQuiet_of_open (s : St) (c : Nat) (hc : s.isClosed = false) :
    wsQuietB (close s c).1 = true := by
  have h := cleanup_wsQuiet s c
  simp [close, hc]
  rcases hw : s.ws with _ | w <;> simp [cleanup, clearTimer, wsQuietB, hw]

theorem close_wsListening_of_open (s : St) (c : Nat) (hc : s.isClosed = false) :
    wsListening (close s c).1 = false := by
  simp [close, hc]
  rcases hw : s.ws with _ | w <;> simp [cleanup, clearTimer, wsListening, hw]

theorem close_pending_sublist (s : St) (c : Nat) :
    List.Sublist (close s c).1.pending s.pending := by
  by_cases hc : s.isClosed
  · simp [close, hc]
  · simp [close, hc]
    exact cleanup_pending_sublist s c

theorem close_pending_vars (s : St) (c : Nat) (hc : s.isClosed = false) :
    ∀ t ∈ (close s c).1.pending,
      some t.id ≠ s.connectionTimeout ∧ some t.id ≠ s.heartbeatTimeout
      ∧ some t.id ≠ s.heartbeatInterval ∧ some t.id ≠ s.reconnectTimeout := by
  intro t ht
  simp [close, hc] at ht
  exact cleanup_pending_vars s c t ht

theorem close_effects (s : St) (c : Nat) :
    (close s c).2 = [] ∨ (close s c).2 = [Eff.wsCloseCall c] := by
  by_cases hc : s.isClosed
  · left; simp [close, hc]
  · have := cleanup_effects s c
    simp [close, hc]
    exact this

theorem onOpen_settings (s : St) :
    (onOpen s).1.settings = s.settings := by
  simp [onOpen, clearTimer, setTimer, sendAll_settings]

theorem onOpen_reconnectDelay (s : St) :
    (onOpen s).1.reconnectDelay = s.settings.minReconnectDelay := by
  simp [onOpen, clearTimer, setTimer, sendAll_reconnectDelay]

theorem onOpen_isClosed (s : St) : (onOpen s).1.isClosed = s.isClosed := by
  simp [onOpen, clearTimer, setTimer, sendAll_isClosed]

theorem onOpen_ws (s : St) : (onOpen s).1.ws = s.ws := by
  simp [onOpen, clearTimer, setTimer, sendAll_ws]

theorem onOpen_nextId (s : St) : (onOpen s).1.nextId = s.nextId + 1 := by
  simp [onOpen, clearTimer, setTimer, sendAll_nextId]

theorem onOpen_reconnectTimeout (s : St) :
    (onOpen s).1.reconnectTimeout = s.reconnectTimeout := by
  simp [onOpen, clearTimer, setTimer, sendAll_reconnectTimeout]

theorem onOpen_resolvePending (s : St) :
    (onOpen s).1.resolvePending = s.resolvePending := by
  simp [onOpen, clearTimer, setTimer, sendAll_resolvePending]

theorem onOpen_shouldIgnorePongs (s : St) :
    (onOpen s).1.shouldIgnorePongs = s.shouldIgnorePongs := by
  simp [onOpen, clearTimer, setTimer, sendAll_shouldIgnorePongs]

theorem onOpen_emitter (s : St) : (onOpen s).1.emitter = s.emitter := by
  simp [onOpen, clearTimer, setTimer, sendAll_emitter]

theorem onOpen_pending (s : St) :
    (onOpen s).1.pending
      = (s.pending.filter (fun t => decide (some t.id ≠ s.connectionTimeout)))
        ++ [{ id := s.nextId, kind := TimerKind.hbInterval,
              delayMs := s.settings.heartbeatInterval }] := by
  simp [onOpen, clearTimer, setTimer, sendAll_pending]

theorem onOpen_effects (s : St) :
    ∀ e ∈ (onOpen s).2, (∃ m, e = Eff.wsSend m) ∨ e = Eff.emitOpen := by
  intro e he
  simp only [onOpen] at he
  rcases List.mem_append.mp he with h | h
  · exact Or.inl (sendAll_effects _ _ e h)
  · simp at h; exact Or.inr h

theorem hbTick_pending (s : St) :
    (hbTick s).1.pending
      = s.pending ++ [{ id := s.nextId, kind := TimerKind.hbTimeout,
                        delayMs := s.settings.heartbeatTimeout }] := by
  by_cases ho : isOpen s <;> simp [hbTick, setTimer, ping, ho]

theorem hbTick_heartbeatTimeout (s : St) :
    (hbTick s).1.heartbeatTimeout = some s.nextId := by
  by_cases ho : isOpen s <;> simp [hbTick, setTimer, ping, ho]

theorem hbTick_settings (s : St) : (hbTick s).1.settings = s.settings := by
  by_cases ho : isOpen s <;> simp [hbTick, setTimer, ping, ho]

theorem hbTick_reconnectDelay (s : St) :
    (hbTick s).1.reconnectDelay = s.reconnectDelay := by
  by_cases ho : isOpen s <;> simp [hbTick, setTimer, ping, ho]

theorem hbTick_isClosed (s : St) : (hbTick s).1.isClosed = s.isClosed := by
  by_cases ho : isOpen s <;> simp [hbTick, setTimer, ping, ho]

theorem hbTick_ws (s : St) : (hbTick s).1.ws = s.ws := by
  by_cases ho : isOpen s <;> simp [hbTick, setTimer, ping, ho]

theorem hbTick_msgBuffer (s : St) : (hbTick s).1.msgBuffer = s.msgBuffer := by
  by_cases ho : isOpen s <;> simp [hbTick, setTimer, ping, ho]

theorem hbTick_nextId (s : St) : (hbTick s).1.nextId = s.nextId + 1 := by
  by_cases ho : isOpen s <;> simp [hbTick, setTimer, ping, ho]

theorem hbTick_reconnectTimeout (s : St) :
    (hbTick s).1.reconnectTimeout = s.reconnectTimeout := by
  by_cases ho : isOpen s <;> simp [hbTick, setTimer, ping, ho]

theorem hbTick_shouldIgnorePongs (s : St) :
    (hbTick s).1.shouldIgnorePongs = s.shouldIgnorePongs := by
  by_cases ho : isOpen s <;> simp [hbTick, setTimer, ping, ho]

theorem hbTick_effects (s : St) :
    (hbTick s).2 = [] ∨ (hbTick s).2 = [Eff.wsPing] := by
  by_cases ho : isOpen s
  · right; simp [hbTick, setTimer, ping, isOpen] at ho ⊢
    rcases hw : s.ws with _ | w
    · rw [hw] at ho; simp at ho
    · rw [hw] at ho; simp_all [ping, isOpen, hw]
  · left; simp [hbTick, setTimer, ping, isOpen] at ho ⊢
    rcases hw : s.ws with _ | w
    · simp [hw]
    · rw [hw] at ho; simp_all [hw]

theorem step_settings (s : St) (a : Act) : (step s a).1.settings = s.settings := by
  cases a with
  | actSend m =>
    obtain ⟨b, h⟩ := send_frame s m
    show (send s m).1.settings = s.settings
    rw [h]
  | actReconnect c => simp [step, reconnect_settings]
  | actClose c => simp [step, close_settings]
  | actIgnorePongs => rfl
  | actOn ev h => rfl
  | fireTimerAct i =>
    rcases hf : s.pending.find? (fun t => decide (t.id = i)) with _ | t
    · simp [step, fireTimer, hf]
    · rcases t with ⟨tid, tk, tms⟩
      cases tk <;>
        simp [step, fireTimer, hf, onConnTimeout, onHbTimeout,
          reconnect_settings, removeTimer, hbTick_settings, connect]
  | settleOk =>
    by_cases hp : s.resolvePending <;> by_cases hc : s.isClosed <;>
      simp [step, resolveOk, hp, hc, setTimer]
  | settleFail =>
    by_cases hp : s.resolvePending <;> by_cases hc : s.isClosed <;>
      simp [step, resolveFail, hp, hc, reconnect_settings]
  | wsOpenEv =>
    rcases hw : s.ws with _ | w
    · simp [step, fireWsOpen, hw]
    · by_cases hr : w.readyState = ReadyState.CONNECTING
      · by_cases hl : w.listeners <;>
          simp [step, fireWsOpen, hw, hr, hl, onOpen_settings]
      · simp [step, fireWsOpen, hw, hr]
  | wsMessageEv m =>
    by_cases hl : wsListening s <;> simp [step, fireWsMessage, hl, onMessage]
  | wsPongEv =>
    by_cases hl : wsListening s
    · by_cases hip : s.shouldIgnorePongs <;>
        simp [step, fireWsPong, hl, onPong, hip, clearTimer]
    · simp [step, fireWsPong, hl]
  | wsErrorEv =>
    by_cases hl : wsListening s <;> simp [step, fireWsError, hl, onError]
  | wsCloseEv c =>
    rcases hw : s.ws with _ | w
    · simp [step, fireWsClose, hw]
    · by_cases hr : w.readyState = ReadyState.CLOSED
      · simp [step, fireWsClose, hw, hr]
      · by_cases hl : w.listeners <;>
          simp [step, fireWsClose, hw, hr, hl, onClose_fst, reconnect_settings]

theorem step_delay (s : St) (a : Act) :
    (step s a).1.reconnectDelay = s.reconnectDelay
    ∨ (step s a).1.reconnectDelay = s.settings.minReconnectDelay
    ∨ (step s a).1.reconnectDelay
        = min (s.reconnectDelay * s.settings.reconnectDelayMultiplier)
            s.settings.maxReconnectDelay := by
  cases a with
  | actSend m =>
    obtain ⟨b, h⟩ := send_frame s m
    left; show (send s m).1.reconnectDelay = _; rw [h]
  | actReconnect c => right; right; simp [step, reconnect_delay]
  | actClose c => left; simp [step, close_reconnectDelay]
  | actIgnorePongs => left; rfl
  | actOn ev h => left; rfl
  | fireTimerAct i =>
    rcases hf : s.pending.find? (fun t => decide (t.id = i)) with _ | t
    · left; simp [step, fireTimer, hf]
    · rcases t with ⟨tid, tk, tms⟩
      cases tk with
      | connTimeout =>
        right; right
        simp [step, fireTimer, hf, onConnTimeout, reconnect_delay, removeTimer]
      | hbTimeout =>
        right; right
        simp [step, fireTimer, hf, onHbTimeout, reconnect_delay, removeTimer]
      | reconnectTimer => left; simp [step, fireTimer, hf, connect, removeTimer]
      | hbInterval => left; simp [step, fireTimer, hf, hbTick_reconnectDelay]
  | settleOk =>
    left
    by_cases hp : s.resolvePending <;> by_cases hc : s.isClosed <;>
      simp [step, resolveOk, hp, hc, setTimer]
  | settleFail =>
    by_cases hp : s.resolvePending
    · by_cases hc : s.isClosed
      · left; simp [step, resolveFail, hp, hc]
      · right; right; simp [step, resolveFail, hp, hc, reconnect_delay]
    · left; simp [step, resolveFail, hp]
  | wsOpenEv =>
    rcases hw : s.ws with _ | w
    · left; simp [step, fireWsOpen, hw]
    · by_cases hr : w.readyState = ReadyState.CONNECTING
      · by_cases hl : w.listeners
        · right; left; simp [step, fireWsOpen, hw, hr, hl, onOpen_reconnectDelay]
        · left; simp [step, fireWsOpen, hw, hr, hl]
      · left; simp [step, fireWsOpen, hw, hr]
  | wsMessageEv m =>
    left; by_cases hl : wsListening s <;> simp [step, fireWsMessage, hl, onMessage]
  | wsPongEv =>
    left
    by_cases hl : wsListening s
    · by_cases hip : s.shouldIgnorePongs <;>
        simp [step, fireWsPong, hl, onPong, hip, clearTimer]
    · simp [step, fireWsPong, hl]
  | wsErrorEv =>
    left; by_cases hl : wsListening s <;> simp [step, fireWsError, hl, onError]
  | wsCloseEv c =>
    rcases hw : s.ws with _ | w
    · left; simp [step, fireWsClose, hw]
    · by_cases hr : w.readyState = ReadyState.CLOSED
      · left; simp [step, fireWsClose, hw, hr]
      · by_cases hl : w.listeners
        · right; right
          simp [step, fireWsClose, hw, hr, hl, onClose_fst, reconnect_delay]
        · left; simp [step, fireWsClose, hw, hr, hl]

theorem step_isClosed (s : St) (a : Act) :
    (step s a).1.isClosed = s.isClosed ∨ (step s a).1.isClosed = true := by
  cases a with
  | actSend m =>
    obtain ⟨b, h⟩ := send_frame s m
    left; show (send s m).1.isClosed = _; rw [h]
  | actReconnect c => left; simp [step, reconnect_isClosed]
  | actClose c => right; simp [step, close_isClosed]
  | actIgnorePongs => left; rfl
  | actOn ev h => left; rfl
  | fireTimerAct i =>
    rcases hf : s.pending.find? (fun t => decide (t.id = i)) with _ | t
    · left; simp [step, fireTimer, hf]
    · rcases t with ⟨tid, tk, tms⟩
      left
      cases tk <;>
        simp [step, fireTimer, hf, onConnTimeout, onHbTimeout,
          reconnect_isClosed, removeTimer, hbTick_isClosed, connect]
  | settleOk =>
    left
    by_cases hp : s.resolvePending <;> by_cases hc : s.isClosed <;>
      simp [step, resolveOk, hp, hc, setTimer]
  | settleFail =>
    left
    by_cases hp : s.resolvePending <;> by_cases hc : s.isClosed <;>
      simp [step, resolveFail, hp, hc, reconnect_isClosed]
  | wsOpenEv =>
    left
    rcases hw : s.ws with _ | w
    · simp [step, fireWsOpen, hw]
    · by_cases hr : w.readyState = ReadyState.CONNECTING
      · by_cases hl : w.listeners <;>
          simp [step, fireWsOpen, hw, hr, hl, onOpen_isClosed]
      · simp [step, fireWsOpen, hw, hr]
  | wsMessageEv m =>
    left; by_cases hl : wsListening s <;> simp [step, fireWsMessage, hl, onMessage]
  | wsPongEv =>
    left
    by_cases hl : wsListening s
    · by_cases hip : s.shouldIgnorePongs <;>
        simp [step, fireWsPong, hl, onPong, hip, clearTimer]
    · simp [step, fireWsPong, hl]
  | wsErrorEv =>
    left; by_cases hl : wsListening s <;> simp [step, fireWsError, hl, onError]
  | wsCloseEv c =>
    left
    rcases hw : s.ws with _ | w
    · simp [step, fireWsClose, hw]
    · by_cases hr : w.readyState = ReadyState.CLOSED
      · simp [step, fireWsClose, hw, hr]
      · by_cases hl : w.listeners <;>
          simp [step, fireWsClose, hw, hr, hl, onClose_fst, reconnect_isClosed]

theorem step_closed_mono (s : St) (a : Act) (hc : s.isClosed = true) :
    (step s a).1.isClosed = true := by
  rcases step_isClosed s a with h | h
  · rw [h]; exact hc
  · exact h

theorem reachable_settings (stg : Settings) (s : St) (h : Reachable stg s) :
    s.settings = stg := by
  induction h with
  | init => rfl
  | step s1 a h1 ih => rw [step_settings]; exact ih

theorem delay_le_max (stg : Settings) (s : St)
    (hmm : stg.minReconnectDelay ≤ stg.maxReconnectDelay)
    (h : Reachable stg s) : s.reconnectDelay ≤ stg.maxReconnectDelay := by
  induction h with
  | init => exact hmm
  | step s1 a h1 ih =>
    have hs := reachable_settings stg s1 h1
    rcases step_delay s1 a with h2 | h2 | h2
    · rw [h2]; exact ih
    · rw [h2, hs]; exact hmm
    · rw [h2, hs]; exact min_le_right _ _

theorem resolveOk_closed (s : St) (hc : s.isClosed = true) :
    resolveOk s = ({ s with resolvePending := false }, []) := by
  by_cases hp : s.resolvePending
  · simp [resolveOk, hp, hc]
  · have hpf : s.resolvePending = false := by simpa using hp
    have hs : ({ s with resolvePending := false } : St) = s := by rw [← hpf]
    simp [resolveOk, hp, hs]

theorem resolveFail_closed (s : St) (hc : s.isClosed = true) :
    resolveFail s = ({ s with resolvePending := false }, []) := by
  by_cases hp : s.resolvePending
  · simp [resolveFail, hp, hc]
  · have hpf : s.resolvePending = false := by simpa using hp
    have hs : ({ s with resolvePending := false } : St) = s := by rw [← hpf]
    simp [resolveFail, hp, hs]

theorem resolveOk_isClosed (s : St) : (resolveOk s).1.isClosed = s.isClosed := by
  by_cases hp : s.resolvePending <;> by_cases hcl : s.isClosed <;>
    simp [resolveOk, hp, hcl, setTimer]

theorem resolveFail_isClosed (s : St) :
    (resolveFail s).1.isClosed = s.isClosed := by
  by_cases hp : s.resolvePending <;> by_cases hcl : s.isClosed <;>
    simp [resolveFail, hp, hcl, reconnect_isClosed]

theorem step_quiet (s : St) (a : Act)
    (h : s.isClosed = true → wsQuietB s = true)
    (hc : (step s a).1.isClosed = true) : wsQuietB (step s a).1 = true := by
  cases a with
  | actSend m =>
    obtain ⟨b, hb⟩ := send_frame s m
    show wsQuietB (send s m).1 = true
    have hcs : s.isClosed = true := by
      have h2 : (send s m).1.isClosed = true := hc
      rw [hb] at h2; exact h2
    rw [hb]; exact h hcs
  | actReconnect c => exact reconnect_wsQuiet s c
  | actClose c =>
    by_cases hcl : s.isClosed
    · show wsQuietB (close s c).1 = true
      rw [close_of_closed s c hcl]; exact h hcl
    · exact close_wsQuiet_of_open s c (by simpa using hcl)
  | actIgnorePongs => exact h hc
  | actOn ev hh => exact h hc
  | fireTimerAct i =>
    show wsQuietB (fireTimer s i).1 = true
    have hc2 : (fireTimer s i).1.isClosed = true := hc
    rcases hf : s.pending.find? (fun t => decide (t.id = i)) with _ | t
    · have he : fireTimer s i = (s, []) := by simp [fireTimer, hf]
      rw [he] at hc2 ⊢; exact h hc2
    · rcases t with ⟨tid, tk, tms⟩
      cases tk with
      | connTimeout =>
        have he : fireTimer s i = onConnTimeout (removeTimer s i) := by
          simp [fireTimer, hf]
        rw [he, onConnTimeout_fst]; exact reconnect_wsQuiet _ _
      | hbTimeout =>
        have he : fireTimer s i = onHbTimeout (removeTimer s i) := by
          simp [fireTimer, hf]
        rw [he, onHbTimeout_fst]; exact reconnect_wsQuiet _ _
      | reconnectTimer =>
        have he : fireTimer s i = (connect (removeTimer s i), []) := by
          simp [fireTimer, hf]
        rw [he] at hc2 ⊢
        exact h hc2
      | hbInterval =>
        have he : fireTimer s i = hbTick s := by simp [fireTimer, hf]
        rw [he] at hc2 ⊢
        rw [hbTick_isClosed] at hc2
        have hq := h hc2
        unfold wsQuietB at hq ⊢
        rw [hbTick_ws]
        exact hq
  | settleOk =>
    show wsQuietB (resolveOk s).1 = true
    have hc2 : (resolveOk s).1.isClosed = true := hc
    by_cases hcl : s.isClosed
    · rw [resolveOk_closed s hcl]; exact h hcl
    · exfalso; rw [resolveOk_isClosed] at hc2; exact hcl hc2
  | settleFail =>
    show wsQuietB (resolveFail s).1 = true
    have hc2 : (resolveFail s).1.isClosed = true := hc
    by_cases hcl : s.isClosed
    · rw [resolveFail_closed s hcl]; exact h hcl
    · by_cases hp : s.resolvePending
      · have he : (resolveFail s).1
            = (reconnect { s with resolvePending := false } 1000).1 := by
          simp [resolveFail, hp, hcl]
        rw [he]; exact reconnect_wsQuiet _ _
      · exfalso
        have he : resolveFail s = (s, []) := by simp [resolveFail, hp]
        rw [he] at hc2; exact hcl hc2
  | wsOpenEv =>
    show wsQuietB (fireWsOpen s).1 = true
    have hc2 : (fireWsOpen s).1.isClosed = true := hc
    rcases hw : s.ws with _ | w
    · have he : fireWsOpen s = (s, []) := by simp [fireWsOpen, hw]
      rw [he] at hc2 ⊢; exact h hc2
    · by_cases hr : w.readyState = ReadyState.CONNECTING
      · by_cases hl : w.listeners
        · exfalso
          have he : fireWsOpen s
              = onOpen { s with ws := some { w with readyState := ReadyState.OPEN } } := by
            simp [fireWsOpen, hw, hr, hl]
          rw [he, onOpen_isClosed] at hc2
          have hq := h hc2
          simp [wsQuietB, hw, hr] at hq
        · exfalso
          have he : fireWsOpen s
              = ({ s with ws := some { w with readyState := ReadyState.OPEN } }, []) := by
            simp [fireWsOpen, hw, hr, hl]
          rw [he] at hc2
          have hq := h hc2
          simp [wsQuietB, hw, hr] at hq
      · have he : fireWsOpen s = (s, []) := by simp [fireWsOpen, hw, hr]
        rw [he] at hc2 ⊢; exact h hc2
  | wsMessageEv m =>
    show wsQuietB (fireWsMessage s m).1 = true
    have hc2 : (fireWsMessage s m).1.isClosed = true := hc
    have he : (fireWsMessage s m).1 = s := by
      by_cases hl : wsListening s <;> simp [fireWsMessage, hl, onMessage]
    rw [he] at hc2 ⊢; exact h hc2
  | wsPongEv =>
    show wsQuietB (fireWsPong s).1 = true
    have hc2 : (fireWsPong s).1.isClosed = true := hc
    by_cases hl : wsListening s
    · by_cases hip : s.shouldIgnorePongs
      · have he : fireWsPong s = (s, []) := by simp [fireWsPong, hl, onPong, hip]
        rw [he] at hc2 ⊢; exact h hc2
      · have he : fireWsPong s = (clearTimer s s.heartbeatTimeout, []) := by
          simp [fireWsPong, hl, onPong, hip]
        rw [he] at hc2 ⊢
        have hcs : s.isClosed = true := hc2
        have hq := h hcs
        unfold wsQuietB at hq ⊢
        exact hq
    · have he : fireWsPong s = (s, []) := by simp [fireWsPong, hl]
      rw [he] at hc2 ⊢; exact h hc2
  | wsErrorEv =>
    show wsQuietB (fireWsError s).1 = true
    have hc2 : (fireWsError s).1.isClosed = true := hc
    have he : (fireWsError s).1 = s := by
      by_cases hl : wsListening s <;> simp [fireWsError, hl, onError]
    rw [he] at hc2 ⊢; exact h hc2
  | wsCloseEv c =>
    show wsQuietB (fireWsClose s c).1 = true
    have hc2 : (fireWsClose s c).1.isClosed = true := hc
    rcases hw : s.ws with _ | w
    · have he : fireWsClose s c = (s, []) := by simp [fireWsClose, hw]
      rw [he] at hc2 ⊢; exact h hc2
    · by_cases hr : w.readyState = ReadyState.CLOSED
      · have he : fireWsClose s c = (s, []) := by simp [fireWsClose, hw, hr]
        rw [he] at hc2 ⊢; exact h hc2
      · by_cases hl : w.listeners
        · have he : (fireWsClose s c).1
              = (onClose { s with ws := some { w with readyState := ReadyState.CLOSED } } c).1 := by
            simp [fireWsClose, hw, hr, hl]
          rw [he, onClose_fst]; exact reconnect_wsQuiet _ _
        · have he : fireWsClose s c
              = ({ s with ws := some { w with readyState := ReadyState.CLOSED } }, []) := by
            simp [fireWsClose, hw, hr, hl]
          rw [he]
          have hl2 : w.listeners = false := by simpa using hl
          simp [wsQuietB, hl2]

theorem closed_quiet (stg : Settings) (s : St) (h : Reachable stg s) :
    s.isClosed = true → wsQuietB s = true := by
  induction h with
  | init => intro hc; simp [init] at hc
  | step s1 a h1 ih => intro hc; exact step_quiet s1 a ih hc

theorem quiet_isOpen_false (s : St) (hq : wsQuietB s = true) :
    isOpen s = false := by
  unfold wsQuietB at hq
  unfold isOpen
  rcases hw : s.ws with _ | w
  · rfl
  · rw [hw] at hq; simp at hq; simp [hq.2]

theorem quiet_wsListening_false (s : St) (hq : wsQuietB s = true) :
    wsListening s = false := by
  unfold wsQuietB at hq
  unfold wsListening
  rcases hw : s.ws with _ | w
  · rfl
  · rw [hw] at hq; simp at hq; exact hq.1.1

theorem RInv_of_sublist (s s' : St) (h : RInvP s)
    (hsub : List.Sublist s'.pending s.pending)
    (hvar : s'.reconnectTimeout = s.reconnectTimeout) : RInvP s' :=
  ⟨fun t ht hk => by rw [hvar]; exact h.1 t (hsub.mem ht) hk,
   le_trans (countKindL_sublist _ _ hsub _) h.2⟩

theorem RInv_append_nonrec (s s' : St) (h : RInvP s) (t0 : Timer)
    (hk : t0.kind ≠ TimerKind.reconnectTimer)
    (hp : s'.pending = s.pending ++ [t0])
    (hv : s'.reconnectTimeout = s.reconnectTimeout) : RInvP s' := by
  constructor
  · intro t ht hkt
    rw [hp] at ht
    rcases List.mem_append.mp ht with hm | hm
    · rw [hv]; exact h.1 t hm hkt
    · simp at hm; rw [hm] at hkt; exact absurd hkt hk
  · show countKindL s'.pending _ ≤ 1
    rw [hp, countKindL_append]
    have hz : countKindL [t0] TimerKind.reconnectTimer = 0 :=
      countKindL_eq_zero _ _ (by simpa using hk)
    rw [hz]
    simpa using h.2

theorem reconnect_RInv (s : St) (c : Nat)
    (hA : ∀ t ∈ s.pending, t.kind = TimerKind.reconnectTimer →
      some t.id = s.reconnectTimeout) : RInvP (reconnect s c).1 := by
  have hnone := cleanup_reconnectKind_none s c hA
  constructor
  · intro t ht hk
    rw [reconnect_pending] at ht
    rcases List.mem_append.mp ht with hm | hm
    · exact absurd hk (hnone t hm)
    · simp at hm
      rw [reconnect_reconnectTimeout, hm]
  · show countKindL (reconnect s c).1.pending _ ≤ 1
    rw [reconnect_pending, countKindL_append,
      countKindL_eq_zero _ _ hnone]
    simp [countKindL]

theorem step_RInv (s : St) (a : Act) (h : RInvP s) : RInvP (step s a).1 := by
  cases a with
  | actSend m =>
    obtain ⟨b, hb⟩ := send_frame s m
    show RInvP (send s m).1
    rw [hb]; exact h
  | actReconnect c => exact reconnect_RInv s c h.1
  | actClose c =>
    exact RInv_of_sublist s _ h (close_pending_sublist s c) (close_reconnectTimeout s c)
  | actIgnorePongs => exact h
  | actOn ev hh => exact h
  | fireTimerAct i =>
    show RInvP (fireTimer s i).1
    rcases hf : s.pending.find? (fun t => decide (t.id = i)) with _ | t
    · have he : fireTimer s i = (s, []) := by simp [fireTimer, hf]
      rw [he]; exact h
    · rcases t with ⟨tid, tk, tms⟩
      have hA2 : ∀ t ∈ (removeTimer s i).pending,
          t.kind = TimerKind.reconnectTimer →
            some t.id = (removeTimer s i).reconnectTimeout :=
        fun t ht hk => h.1 t ((removeTimer_pending_sublist s i).mem ht) hk
      cases tk with
      | connTimeout =>
        have he : fireTimer s i = onConnTimeout (removeTimer s i) := by
          simp [fireTimer, hf]
        rw [he, onConnTimeout_fst]
        exact reconnect_RInv _ _ hA2
      | hbTimeout =>
        have he : fireTimer s i = onHbTimeout (removeTimer s i) := by
          simp [fireTimer, hf]
        rw [he, onHbTimeout_fst]
        exact reconnect_RInv _ _ hA2
      | reconnectTimer =>
        have he : fireTimer s i = (connect (removeTimer s i), []) := by
          simp [fireTimer, hf]
        rw [he]
        exact RInv_of_sublist s _ h (removeTimer_pending_sublist s i) rfl
      | hbInterval =>
        have he : fireTimer s i = hbTick s := by simp [fireTimer, hf]
        rw [he]
        exact RInv_append_nonrec s _ h _ (by simp) (hbTick_pending s)
          (hbTick_reconnectTimeout s)
  | settleOk =>
    show RInvP (resolveOk s).1
    by_cases hp : s.resolvePending
    · by_cases hcl : s.isClosed
      · rw [resolveOk_closed s hcl]; exact h
      · have hpend : (resolveOk s).1.pending
            = s.pending ++ [{ id := s.nextId, kind := TimerKind.connTimeout,
                              delayMs := s.settings.connectionTimeout }] := by
          simp [resolveOk, hp, hcl, setTimer]
        have hvar : (resolveOk s).1.reconnectTimeout = s.reconnectTimeout := by
          simp [resolveOk, hp, hcl, setTimer]
        exact RInv_append_nonrec s _ h _ (by simp) hpend hvar
    · have he : resolveOk s = (s, []) := by simp [resolveOk, hp]
      rw [he]; exact h
  | settleFail =>
    show RInvP (resolveFail s).1
    by_cases hp : s.resolvePending
    · by_cases hcl : s.isClosed
      · rw [resolveFail_closed s hcl]; exact h
      · have he : (resolveFail s).1
            = (reconnect { s with resolvePending := false } 1000).1 := by
          simp [resolveFail, hp, hcl]
        rw [he]
        exact reconnect_RInv _ _ (fun t ht hk => h.1 t ht hk)
    · have he : resolveFail s = (s, []) := by simp [resolveFail, hp]
      rw [he]; exact h
  | wsOpenEv =>
    show RInvP (fireWsOpen s).1
    rcases hw : s.ws with _ | w
    · have he : fireWsOpen s = (s, []) := by simp [fireWsOpen, hw]
      rw [he]; exact h
    · by_cases hr : w.readyState = ReadyState.CONNECTING
      · by_cases hl : w.listeners
        · have he : fireWsOpen s
              = onOpen { s with ws := some { w with readyState := ReadyState.OPEN } } := by
            simp [fireWsOpen, hw, hr, hl]
          rw [he]
          have h1 : RInvP (clearTimer
              { s with ws := some { w with readyState := ReadyState.OPEN } }
              s.connectionTimeout) :=
            RInv_of_sublist s _ h (List.filter_sublist _) rfl
          exact RInv_append_nonrec _ _ h1 _ (by simp)
            (onOpen_pending _) (onOpen_reconnectTimeout _)
        · have he : fireWsOpen s
              = ({ s with ws := some { w with readyState := ReadyState.OPEN } }, []) := by
            simp [fireWsOpen, hw, hr, hl]
          rw [he]; exact h
      · have he : fireWsOpen s = (s, []) := by simp [fireWsOpen, hw, hr]
        rw [he]; exact h
  | wsMessageEv m =>
    show RInvP (fireWsMessage s m).1
    have he : (fireWsMessage s m).1 = s := by
      by_cases hl : wsListening s <;> simp [fireWsMessage, hl, onMessage]
    rw [he]; exact h
  | wsPongEv =>
    show RInvP (fireWsPong s).1
    by_cases hl : wsListening s
    · by_cases hip : s.shouldIgnorePongs
      · have he : fireWsPong s = (s, []) := by simp [fireWsPong, hl, onPong, hip]
        rw [he]; exact h
      · have he : fireWsPong s = (clearTimer s s.heartbeatTimeout, []) := by
          simp [fireWsPong, hl, onPong, hip]
        rw [he]
        exact RInv_of_sublist s _ h (List.filter_sublist _) rfl
    · have he : fireWsPong s = (s, []) := by simp [fireWsPong, hl]
      rw [he]; exact h
  | wsErrorEv =>
    show RInvP (fireWsError s).1
    have he : (fireWsError s).1 = s := by
      by_cases hl : wsListening s <;> simp [fireWsError, hl, onError]
    rw [he]; exact h
  | wsCloseEv c =>
    show RInvP (fireWsClose s c).1
    rcases hw : s.ws with _ | w
    · have he : fireWsClose s c = (s, []) := by simp [fireWsClose, hw]
      rw [he]; exact h
    · by_cases hr : w.readyState = ReadyState.CLOSED
      · have he : fireWsClose s c = (s, []) := by simp [fireWsClose, hw, hr]
        rw [he]; exact h
      · by_cases hl : w.listeners
        · have he : (fireWsClose s c).1
              = (onClose { s with ws := some { w with readyState := ReadyState.CLOSED } } c).1 := by
            simp [fireWsClose, hw, hr, hl]
          rw [he, onClose_fst]
          exact reconnect_RInv _ _ (fun t ht hk => h.1 t ht hk)
        · have he : fireWsClose s c
              = ({ s with ws := some { w with readyState := ReadyState.CLOSED } }, []) := by
            simp [fireWsClose, hw, hr, hl]
          rw [he]; exact h

theorem reachable_RInv (stg : Settings) (s : St) (h : Reachable stg s) :
    RInvP s := by
  induction h with
  | init =>
    constructor
    · intro t ht _; simp [init] at ht
    · simp [init, countKind, countKindL]
  | step s1 a h1 ih => exact step_RInv s1 a ih

theorem IdsB_of_sublist (s s' : St) (h : IdsBP s)
    (hsub : List.Sublist s'.pending s.pending)
    (hn : s.nextId ≤ s'.nextId) : IdsBP s' :=
  fun t ht => lt_of_lt_of_le (h t (hsub.mem ht)) hn

theorem IdsB_append (s' : St) (l : List Timer) (n : Nat) (k : TimerKind) (d : Nat)
    (h : ∀ t ∈ l, t.id < n)
    (hp : s'.pending = l ++ [{ id := n, kind := k, delayMs := d }])
    (hn : s'.nextId = n + 1) : IdsBP s' := by
  intro t ht
  rw [hp] at ht
  rw [hn]
  rcases List.mem_append.mp ht with hm | hm
  · exact lt_trans (h t hm) (Nat.lt_succ_self n)
  · simp at hm; rw [hm]; exact Nat.lt_succ_self n

theorem reconnect_IdsB (s : St) (c : Nat) (h : IdsBP s) :
    IdsBP (reconnect s c).1 :=
  IdsB_append _ (cleanup s c).1.pending s.nextId TimerKind.reconnectTimer
    s.reconnectDelay
    (fun t ht => h t (cleanup_pending_mem s c t ht))
    (reconnect_pending s c) (reconnect_nextId s c)

theorem step_IdsB (s : St) (a : Act) (h : IdsBP s) : IdsBP (step s a).1 := by
  cases a with
  | actSend m =>
    obtain ⟨b, hb⟩ := send_frame s m
    show IdsBP (send s m).1
    rw [hb]; exact h
  | actReconnect c => exact reconnect_IdsB s c h
  | actClose c =>
    show IdsBP (close s c).1
    refine IdsB_of_sublist s _ h (close_pending_sublist s c) ?_
    rw [close_nextId]
  | actIgnorePongs => exact h
  | actOn ev hh => exact h
  | fireTimerAct i =>
    show IdsBP (fireTimer s i).1
    have h2 : IdsBP (removeTimer s i) :=
      fun t ht => h t ((removeTimer_pending_sublist s i).mem ht)
    rcases hf : s.pending.find? (fun t => decide (t.id = i)) with _ | t
    · have he : fireTimer s i = (s, []) := by simp [fireTimer, hf]
      rw [he]; exact h
    · rcases t with ⟨tid, tk, tms⟩
      cases tk with
      | connTimeout =>
        have he : fireTimer s i = onConnTimeout (removeTimer s i) := by
          simp [fireTimer, hf]
        rw [he, onConnTimeout_fst]
        exact reconnect_IdsB _ _ h2
      | hbTimeout =>
        have he : fireTimer s i = onHbTimeout (removeTimer s i) := by
          simp [fireTimer, hf]
        rw [he, onHbTimeout_fst]
        exact reconnect_IdsB _ _ h2
      | reconnectTimer =>
        have he : fireTimer s i = (connect (removeTimer s i), []) := by
          simp [fireTimer, hf]
        rw [he]; exact h2
      | hbInterval =>
        have he : fireTimer s i = hbTick s := by simp [fireTimer, hf]
        rw [he]
        exact IdsB_append _ s.pending s.nextId TimerKind.hbTimeout
          s.settings.heartbeatTimeout h (hbTick_pending s) (hbTick_nextId s)
  | settleOk =>
    show IdsBP (resolveOk s).1
    by_cases hp : s.resolvePending
    · by_cases hcl : s.isClosed
      · rw [resolveOk_closed s hcl]; exact h
      · have hpend : (resolveOk s).1.pending
            = s.pending ++ [{ id := s.nextId, kind := TimerKind.connTimeout,
                              delayMs := s.settings.connectionTimeout }] := by
          simp [resolveOk, hp, hcl, setTimer]
        have hn : (resolveOk s).1.nextId = s.nextId + 1 := by
          simp [resolveOk, hp, hcl, setTimer]
        exact IdsB_append _ s.pending s.nextId TimerKind.connTimeout
          s.settings.connectionTimeout h hpend hn
    · have he : resolveOk s = (s, []) := by simp [resolveOk, hp]
      rw [he]; exact h
  | settleFail =>
    show IdsBP (resolveFail s).1
    by_cases hp : s.resolvePending
    · by_cases hcl : s.isClosed
      · rw [resolveFail_closed s hcl]; exact h
      · have he : (resolveFail s).1
            = (reconnect { s with resolvePending := false } 1000).1 := by
          simp [resolveFail, hp, hcl]
        rw [he]
        exact reconnect_IdsB _ _ (fun t ht => h t ht)
    · have he : resolveFail s = (s, []) := by simp [resolveFail, hp]
      rw [he]; exact h
  | wsOpenEv =>
    show IdsBP (fireWsOpen s).1
    rcases hw : s.ws with _ | w
    · have he : fireWsOpen s = (s, []) := by simp [fireWsOpen, hw]
      rw [he]; exact h
    · by_cases hr : w.readyState = ReadyState.CONNECTING
      · by_cases hl : w.listeners
        · have he : fireWsOpen s
              = onOpen { s with ws := some { w with readyState := ReadyState.OPEN } } := by
            simp [fireWsOpen, hw, hr, hl]
          rw [he]
          exact IdsB_append _ (s.pending.filter
              (fun t => decide (some t.id ≠ s.connectionTimeout)))
            s.nextId TimerKind.hbInterval s.settings.heartbeatInterval
            (fun t ht => h t ((List.filter_sublist _).mem ht))
            (onOpen_pending _) (onOpen_nextId _)
        · have he : fireWsOpen s
              = ({ s with ws := some { w with readyState := ReadyState.OPEN } }, []) := by
            simp [fireWsOpen, hw, hr, hl]
          rw [he]; exact h
      · have he : fireWsOpen s = (s, []) := by simp [fireWsOpen, hw, hr]
        rw [he]; exact h
  | wsMessageEv m =>
    show IdsBP (fireWsMessage s m).1
    have he : (fireWsMessage s m).1 = s := by
      by_cases hl : wsListening s <;> simp [fireWsMessage, hl, onMessage]
    rw [he]; exact h
  | wsPongEv =>
    show IdsBP (fireWsPong s).1
    by_cases hl : wsListening s
    · by_cases hip : s.shouldIgnorePongs
      · have he : fireWsPong s = (s, []) := by simp [fireWsPong, hl, onPong, hip]
        rw [he]; exact h
      · have he : fireWsPong s = (clearTimer s s.heartbeatTimeout, []) := by
          simp [fireWsPong, hl, onPong, hip]
        rw [he]
        exact fun t ht => h t ((List.filter_sublist _).mem ht)
    · have he : fireWsPong s = (s, []) := by simp [fireWsPong, hl]
      rw [he]; exact h
  | wsErrorEv =>
    show IdsBP (fireWsError s).1
    have he : (fireWsError s).1 = s := by
      by_cases hl : wsListening s <;> simp [fireWsError, hl, onError]
    rw [he]; exact h
  | wsCloseEv c =>
    show IdsBP (fireWsClose s c).1
    rcases hw : s.ws with _ | w
    · have he : fireWsClose s c = (s, []) := by simp [fireWsClose, hw]
      rw [he]; exact h
    · by_cases hr : w.readyState = ReadyState.CLOSED
      · have he : fireWsClose s c = (s, []) := by simp [fireWsClose, hw, hr]
        rw [he]; exact h
      · by_cases hl : w.listeners
        · have he : (fireWsClose s c).1
              = (onClose { s with ws := some { w with readyState := ReadyState.CLOSED } } c).1 := by
            simp [fireWsClose, hw, hr, hl]
          rw [he, onClose_fst]
          exact reconnect_IdsB _ _ (fun t ht => h t ht)
        · have he : fireWsClose s c
              = ({ s with ws := some { w with readyState := ReadyState.CLOSED } }, []) := by
            simp [fireWsClose, hw, hr, hl]
          rw [he]; exact h

theorem reachable_IdsB (stg : Settings) (s : St) (h : Reachable stg s) :
    IdsBP s := by
  induction h with
  | init => intro t ht; simp [init] at ht
  | step s1 a h1 ih => exact step_IdsB s1 a ih

/-- C1: the backoff delay starts at minReconnectDelay, onOpen resets it
to minReconnectDelay, reconnect schedules the next connect attempt
after the current (pre-advance) delay and then advances the delay to
min(delay * reconnectDelayMultiplier, maxReconnectDelay); given
multiplier at least 1 and minReconnectDelay at most maxReconnectDelay,
the delay of every reachable state is at most maxReconnectDelay and
reconnect never decreases it. -/
theorem c1_backoff (stg : Settings) (s : St) (c : Nat)
    (hm : 1 ≤ stg.reconnectDelayMultiplier)
    (hmm : stg.minReconnectDelay ≤ stg.maxReconnectDelay)
    (hr : Reachable stg s) :
    (init stg).reconnectDelay = stg.minReconnectDelay
    ∧ (onOpen s).1.reconnectDelay = stg.minReconnectDelay
    ∧ (reconnect s c).1.pending
        = (cleanup s c).1.pending
          ++ [{ id := s.nextId, kind := TimerKind.reconnectTimer,
                delayMs := s.reconnectDelay }]
    ∧ (reconnect s c).1.reconnectDelay
        = min (s.reconnectDelay * stg.reconnectDelayMultiplier)
            stg.maxReconnectDelay
    ∧ s.reconnectDelay ≤ stg.maxReconnectDelay
    ∧ s.reconnectDelay ≤ (reconnect s c).1.reconnectDelay := by
  have hs := reachable_settings stg s hr
  have hle := delay_le_max stg s hmm hr
  refine ⟨rfl, ?_, reconnect_pending s c, ?_, hle, ?_⟩
  · rw [onOpen_reconnectDelay, hs]
  · rw [reconnect_delay, hs]
  · rw [reconnect_delay, hs]
    refine le_min ?_ hle
    calc s.reconnectDelay = s.reconnectDelay * 1 := by ring
    _ ≤ s.reconnectDelay * stg.reconnectDelayMultiplier :=
        Nat.mul_le_mul_left _ hm

theorem c1_backoff_witness :
    1 ≤ defaultSettings.reconnectDelayMultiplier
    ∧ defaultSettings.minReconnectDelay ≤ defaultSettings.maxReconnectDelay
    ∧ ((init defaultSettings).reconnectDelay = defaultSettings.minReconnectDelay
      ∧ (onOpen (init defaultSettings)).1.reconnectDelay
          = defaultSettings.minReconnectDelay
      ∧ (reconnect (init defaultSettings) 1000).1.pending
          = (cleanup (init defaultSettings) 1000).1.pending
            ++ [{ id := (init defaultSettings).nextId,
                  kind := TimerKind.reconnectTimer,
                  delayMs := (init defaultSettings).reconnectDelay }]
      ∧ (reconnect (init defaultSettings) 1000).1.reconnectDelay
          = min ((init defaultSettings).reconnectDelay
                  * defaultSettings.reconnectDelayMultiplier)
              defaultSettings.maxReconnectDelay
      ∧ (init defaultSettings).reconnectDelay ≤ defaultSettings.maxReconnectDelay
      ∧ (init defaultSettings).reconnectDelay
          ≤ (reconnect (init defaultSettings) 1000).1.reconnectDelay) :=
  ⟨by decide, by decide,
   c1_backoff defaultSettings (init defaultSettings) 1000
     (by decide) (by decide) Reachable.init⟩

/-- C6 amended: close is idempotent and one-shot: a call on a closed
controller returns with no state change and no effects; the first call
flips the flag (one-way), empties the emitter subscriptions, detaches
the transport handle, and cancels every timer whose handle is tracked
by one of the four timer variables (an orphaned heartbeat-timeout
timer superseded by a later tick is not tracked and survives, see the
counterexample); a second close after a first one does nothing. -/
theorem c6_close_idempotent (s : St) (c c2 : Nat) : CloseSpec s c c2 := by
  unfold CloseSpec
  refine ⟨close_of_closed s c, close_isClosed s c, ?_, ?_⟩
  · intro hcl
    exact ⟨close_emitter_of_open s c hcl, close_wsListening_of_open s c hcl,
      close_pending_vars s c hcl⟩
  · exact close_of_closed _ c2 (close_isClosed s c)

theorem c6_close_idempotent_witness :
    c6wstate.isClosed = false ∧ CloseSpec c6wstate 1000 1005 :=
  ⟨by decide, c6_close_idempotent c6wstate 1000 1005⟩

/-- C7 amended: once the permanent-closed flag is set, a url-resolution
settlement (success or failure) arriving later is discarded by the
isClosed check, with no effect beyond consuming the in-flight marker;
the flag is one-way under every action; and a closed controller is
never open, before or after any further action.  (An orphaned
heartbeat-timeout timer that survived close is the one exception to
quiescence: its firing still schedules a reconnect and advances the
delay, see the counterexample; the connect it schedules is then
discarded by this check, so no connection ever opens.) -/
theorem c7_closed_no_action (stg : Settings) (s : St)
    (hr : Reachable stg s) (hc : s.isClosed = true) : ClosedSpec s := by
  unfold ClosedSpec
  have hq := closed_quiet stg s hr hc
  refine ⟨resolveOk_closed s hc, resolveFail_closed s hc,
    fun a => step_closed_mono s a hc, quiet_isOpen_false s hq, ?_⟩
  intro a
  have hr2 : Reachable stg (step s a).1 := Reachable.step s a hr
  exact quiet_isOpen_false _ (closed_quiet stg _ hr2 (step_closed_mono s a hc))

theorem c7_closed_no_action_witness :
    Reachable defaultSettings c7wstate ∧ c7wstate.isClosed = true
    ∧ ClosedSpec c7wstate :=
  ⟨by unfold c7wstate; exact reachable_runActs _ _ Reachable.init _,
   by decide,
   c7_closed_no_action defaultSettings c7wstate
     (by unfold c7wstate; exact reachable_runActs _ _ Reachable.init _)
     (by decide)⟩

/-- C2: while a connection is open, a heartbeat-interval tick starts a
heartbeat-timeout timer (scheduled with the heartbeatTimeout setting)
and sends a liveness probe; if that timer fires (no reply arrived, or
the test-only flag kept the reply from being processed), the
controller emits a heartbeat-timeout error after tearing down the
transport and scheduling exactly one reconnect; if a pong arrives in
time with the flag unset, the timer is cancelled, it can no longer
fire, and no heartbeat-timeout error is emitted for that interval;
with the flag set the pong is ignored. -/
theorem c2_heartbeat (stg : Settings) (s : St)
    (hr : Reachable stg s)
    (hopen : isOpen s = true)
    (hflag : s.shouldIgnorePongs = false) :
    HeartbeatSpec s := by
  have hids := reachable_IdsB stg s hr
  have hrinv := reachable_RInv stg s hr
  have hfind : (hbTick s).1.pending.find? (fun t => decide (t.id = s.nextId))
      = some { id := s.nextId, kind := TimerKind.hbTimeout,
               delayMs := s.settings.heartbeatTimeout } := by
    rw [hbTick_pending, List.find?_append]
    have hnone : s.pending.find? (fun t => decide (t.id = s.nextId)) = none :=
      List.find?_eq_none.mpr (fun t ht => by
        simpa using Nat.ne_of_lt (hids t ht))
    rw [hnone]
    simp
  have he : fireTimer (hbTick s).1 s.nextId
      = onHbTimeout (removeTimer (hbTick s).1 s.nextId) := by
    simp [fireTimer, hfind]
  have heff : (hbTick s).2 = [Eff.wsPing] := by
    rcases hw : s.ws with _ | w
    · exfalso; simp [isOpen, hw] at hopen
    · have hro : w.readyState = ReadyState.OPEN := by
        simp [isOpen, hw] at hopen; exact hopen
      simp [hbTick, setTimer, ping, isOpen, hw, hro]
  have hrt : RInvP (hbTick s).1 :=
    RInv_append_nonrec s _ hrinv _ (by simp) (hbTick_pending s)
      (hbTick_reconnectTimeout s)
  have hArm : ∀ t ∈ (removeTimer (hbTick s).1 s.nextId).pending,
      t.kind = TimerKind.reconnectTimer →
        some t.id = (removeTimer (hbTick s).1 s.nextId).reconnectTimeout :=
    fun t ht hk => hrt.1 t ((removeTimer_pending_sublist _ _).mem ht) hk
  have hpong : onPong (hbTick s).1
      = (clearTimer (hbTick s).1 (some s.nextId), []) := by
    have hf2 : (hbTick s).1.shouldIgnorePongs = false := by
      rw [hbTick_shouldIgnorePongs]; exact hflag
    simp [onPong, hf2, hbTick_heartbeatTimeout]
  have hfnone : (onPong (hbTick s).1).1.pending.find?
      (fun t => decide (t.id = s.nextId)) = none := by
    rw [hpong]
    apply List.find?_eq_none.mpr
    intro t ht
    simp [clearTimer, List.mem_filter] at ht
    simpa using ht.2
  unfold HeartbeatSpec
  refine ⟨hbTick_pending s, hbTick_heartbeatTimeout s, heff, he, ?_, ?_, ?_,
    hpong, hfnone, ?_, ?_⟩
  · exact ⟨(reconnect (removeTimer (hbTick s).1 s.nextId) 1000).2,
      by rw [he]; rfl⟩
  · rw [he, onHbTimeout_fst]; exact reconnect_wsListening _ _
  · rw [he, onHbTimeout_fst]
    show countKindL (reconnect _ 1000).1.pending _ = 1
    rw [reconnect_pending, countKindL_append,
      countKindL_eq_zero _ _ (cleanup_reconnectKind_none _ 1000 hArm)]
    simp [countKindL]
  · simp [fireTimer, hfnone]
  · simp [onPong, ignorePongs]

theorem c2_heartbeat_witness :
    Reachable defaultSettings c2state ∧ isOpen c2state = true
    ∧ c2state.shouldIgnorePongs = false ∧ HeartbeatSpec c2state :=
  ⟨by unfold c2state; exact reachable_runActs _ _ Reachable.init _,
   by decide, by decide,
   c2_heartbeat defaultSettings c2state
     (by unfold c2state; exact reachable_runActs _ _ Reachable.init _)
     (by decide) (by decide)⟩

theorem onOpen_drain (s2 : St) (ho : isOpen s2 = true) :
    (onOpen s2).2 = s2.msgBuffer.map Eff.wsSend ++ [Eff.emitOpen]
    ∧ (onOpen s2).1.msgBuffer = [] := by
  rcases hw : s2.ws with _ | w
  · exfalso; simp [isOpen, hw] at ho
  · have hro : w.readyState = ReadyState.OPEN := by
      simp [isOpen, hw] at ho; exact ho
    constructor
    · simp only [onOpen, clearTimer, setTimer]
      rw [sendAll_open s2.msgBuffer _ (by simp [isOpen, hw, hro])]
    · simp only [onOpen, clearTimer, setTimer]
      rw [sendAll_open s2.msgBuffer _ (by simp [isOpen, hw, hro])]

/-- C3: with buffering enabled, payloads sent while the handle is still
connecting are buffered, and the open event transmits exactly those
payloads to the transport in FIFO order (followed by the open
emission), leaving the buffer empty. -/
theorem c3_buffer_drain (s : St) (ms : List Nat)
    (hw : s.ws = some { readyState := ReadyState.CONNECTING, listeners := true })
    (hb : s.settings.messageBuffering = true)
    (hemp : s.msgBuffer = []) :
    (fireWsOpen (sendAll s ms).1).2 = ms.map Eff.wsSend ++ [Eff.emitOpen]
    ∧ (fireWsOpen (sendAll s ms).1).1.msgBuffer = [] := by
  have hno : isOpen s = false := by simp [isOpen, hw]
  have hsa := sendAll_buffering ms s hno hb
  have h1 : (sendAll s ms).1 = { s with msgBuffer := ms } := by
    rw [hsa]; simp [hemp]
  have h2 : fireWsOpen (sendAll s ms).1
      = onOpen { s with msgBuffer := ms,
                        ws := some { readyState := ReadyState.OPEN,
                                     listeners := true } } := by
    rw [h1]; simp [fireWsOpen, hw]
  have ho2 : isOpen { s with msgBuffer := ms,
                             ws := some { readyState := ReadyState.OPEN,
                                          listeners := true } } = true := by
    simp [isOpen]
  obtain ⟨e1, e2⟩ := onOpen_drain _ ho2
  constructor
  · rw [h2, e1]
  · rw [h2, e2]

theorem c3_buffer_drain_witness :
    c3state.ws = some { readyState := ReadyState.CONNECTING, listeners := true }
    ∧ c3state.settings.messageBuffering = true
    ∧ c3state.msgBuffer = []
    ∧ ((fireWsOpen (sendAll c3state [10, 11, 12]).1).2
        = [10, 11, 12].map Eff.wsSend ++ [Eff.emitOpen]
      ∧ (fireWsOpen (sendAll c3state [10, 11, 12]).1).1.msgBuffer = []) :=
  ⟨by decide, by decide, by decide,
   c3_buffer_drain c3state [10, 11, 12] (by decide) (by decide) (by decide)⟩

theorem resolveOk_effects (s : St) : (resolveOk s).2 = [] := by
  by_cases hp : s.resolvePending <;> by_cases hcl : s.isClosed <;>
    simp [resolveOk, hp, hcl, setTimer]

/-- C4 amended: every close event the controller emits carries
willReconnect = true (it is emitted by the transport-close listener,
which always reconnects); the caller's explicit permanent close emits
no close event at all — in particular no close event with
willReconnect = false is ever delivered. -/
theorem c4_close_events (s : St) (a : Act) (c cc : Nat) (b : Bool) :
    (Eff.emitClose cc b ∈ (step s a).2 → b = true)
    ∧ Eff.emitClose cc b ∉ (close s c).2 := by
  constructor
  · intro hmem
    cases a with
    | actSend m =>
      have hh := send_effects s m _ hmem
      simp at hh
    | actReconnect c2 =>
      have hmem2 : Eff.emitClose cc b ∈ (reconnect s c2).2 := hmem
      rw [reconnect_effects] at hmem2
      rcases cleanup_effects s c2 with h | h <;> rw [h] at hmem2 <;> simp at hmem2
    | actClose c2 =>
      have hmem2 : Eff.emitClose cc b ∈ (close s c2).2 := hmem
      rcases close_effects s c2 with h | h <;> rw [h] at hmem2 <;> simp at hmem2
    | actIgnorePongs => simp [step] at hmem
    | actOn ev hh => simp [step] at hmem
    | fireTimerAct i =>
      have hmem2 : Eff.emitClose cc b ∈ (fireTimer s i).2 := hmem
      rcases hf : s.pending.find? (fun t => decide (t.id = i)) with _ | t
      · have he : fireTimer s i = (s, []) := by simp [fireTimer, hf]
        rw [he] at hmem2; simp at hmem2
      · rcases t with ⟨tid, tk, tms⟩
        cases tk with
        | connTimeout =>
          have he : fireTimer s i = onConnTimeout (removeTimer s i) := by
            simp [fireTimer, hf]
          rw [he] at hmem2
          have hmem3 : Eff.emitClose cc b
              ∈ (reconnect (removeTimer s i) 1000).2
                ++ [Eff.emitError ErrReason.connTimeoutErr] := hmem2
          rcases List.mem_append.mp hmem3 with h2 | h2
          · rw [reconnect_effects] at h2
            rcases cleanup_effects (removeTimer s i) 1000 with h | h <;>
              rw [h] at h2 <;> simp at h2
          · simp at h2
        | hbTimeout =>
          have he : fireTimer s i = onHbTimeout (removeTimer s i) := by
            simp [fireTimer, hf]
          rw [he] at hmem2
          have hmem3 : Eff.emitClose cc b
              ∈ (reconnect (removeTimer s i) 1000).2
                ++ [Eff.emitError ErrReason.hbTimeoutErr] := hmem2
          rcases List.mem_append.mp hmem3 with h2 | h2
          · rw [reconnect_effects] at h2
            rcases cleanup_effects (removeTimer s i) 1000 with h | h <;>
              rw [h] at h2 <;> simp at h2
          · simp at h2
        | reconnectTimer =>
          have he : fireTimer s i = (connect (removeTimer s i), []) := by
            simp [fireTimer, hf]
          rw [he] at hmem2; simp at hmem2
        | hbInterval =>
          have he : fireTimer s i = hbTick s := by simp [fireTimer, hf]
          rw [he] at hmem2
          rcases hbTick_effects s with h | h <;> rw [h] at hmem2 <;> simp at hmem2
    | settleOk =>
      have hmem2 : Eff.emitClose cc b ∈ (resolveOk s).2 := hmem
      rw [resolveOk_effects] at hmem2; simp at hmem2
    | settleFail =>
      have hmem2 : Eff.emitClose cc b ∈ (resolveFail s).2 := hmem
      by_cases hp : s.resolvePending
      · by_cases hcl : s.isClosed
        · rw [resolveFail_closed s hcl] at hmem2; simp at hmem2
        · have he : (resolveFail s).2
              = (reconnect { s with resolvePending := false } 1000).2
                ++ [Eff.emitError ErrReason.urlResolveErr] := by
            simp [resolveFail, hp, hcl]
          rw [he] at hmem2
          rcases List.mem_append.mp hmem2 with h2 | h2
          · rw [reconnect_effects] at h2
            rcases cleanup_effects { s with resolvePending := false } 1000 with h | h <;>
              rw [h] at h2 <;> simp at h2
          · simp at h2
      · have he : resolveFail s = (s, []) := by simp [resolveFail, hp]
        rw [he] at hmem2; simp at hmem2
    | wsOpenEv =>
      have hmem2 : Eff.emitClose cc b ∈ (fireWsOpen s).2 := hmem
      rcases hw : s.ws with _ | w
      · have he : fireWsOpen s = (s, []) := by simp [fireWsOpen, hw]
        rw [he] at hmem2; simp at hmem2
      · by_cases hr : w.readyState = ReadyState.CONNECTING
        · by_cases hl : w.listeners
          · have he : fireWsOpen s
                = onOpen { s with ws := some { w with readyState := ReadyState.OPEN } } := by
              simp [fireWsOpen, hw, hr, hl]
            rw [he] at hmem2
            rcases onOpen_effects _ _ hmem2 with ⟨m, hm⟩ | hm <;> simp at hm
          · have he : fireWsOpen s
                = ({ s with ws := some { w with readyState := ReadyState.OPEN } }, []) := by
              simp [fireWsOpen, hw, hr, hl]
            rw [he] at hmem2; simp at hmem2
        · have he : fireWsOpen s = (s, []) := by simp [fireWsOpen, hw, hr]
          rw [he] at hmem2; simp at hmem2
    | wsMessageEv m =>
      have hmem2 : Eff.emitClose cc b ∈ (fireWsMessage s m).2 := hmem
      by_cases hl : wsListening s <;>
        simp [fireWsMessage, hl, onMessage] at hmem2
    | wsPongEv =>
      have hmem2 : Eff.emitClose cc b ∈ (fireWsPong s).2 := hmem
      by_cases hl : wsListening s
      · by_cases hip : s.shouldIgnorePongs <;>
          simp [fireWsPong, hl, onPong, hip] at hmem2
      · simp [fireWsPong, hl] at hmem2
    | wsErrorEv =>
      have hmem2 : Eff.emitClose cc b ∈ (fireWsError s).2 := hmem
      by_cases hl : wsListening s <;>
        simp [fireWsError, hl, onError] at hmem2
    | wsCloseEv c2 =>
      have hmem2 : Eff.emitClose cc b ∈ (fireWsClose s c2).2 := hmem
      rcases hw : s.ws with _ | w
      · have he : fireWsClose s c2 = (s, []) := by simp [fireWsClose, hw]
        rw [he] at hmem2; simp at hmem2
      · by_cases hr : w.readyState = ReadyState.CLOSED
        · have he : fireWsClose s c2 = (s, []) := by simp [fireWsClose, hw, hr]
          rw [he] at hmem2; simp at hmem2
        · by_cases hl : w.listeners
          · have he : fireWsClose s c2
                = onClose { s with ws := some { w with readyState := ReadyState.CLOSED } } c2 := by
              simp [fireWsClose, hw, hr, hl]
            rw [he] at hmem2
            have hmem3 : Eff.emitClose cc b
                ∈ (reconnect { s with ws := some { w with readyState := ReadyState.CLOSED } } 1000).2
                  ++ [Eff.emitClose c2 true] := hmem2
            rcases List.mem_append.mp hmem3 with h2 | h2
            · rw [reconnect_effects] at h2
              rcases cleanup_effects
                  { s with ws := some { w with readyState := ReadyState.CLOSED } } 1000 with h | h <;>
                rw [h] at h2 <;> simp at h2
            · simp at h2; exact h2.2
          · have he : fireWsClose s c2
                = ({ s with ws := some { w with readyState := ReadyState.CLOSED } }, []) := by
              simp [fireWsClose, hw, hr, hl]
            rw [he] at hmem2; simp at hmem2
  · intro hmem
    rcases close_effects s c with h | h <;> rw [h] at hmem <;> simp at hmem

theorem c4_close_events_witness :
    Eff.emitClose 1000 true ∈ (step c4state (Act.wsCloseEv 1000)).2
    ∧ true = true
    ∧ Eff.emitClose 1000 false ∉ (close c4state 1000).2 :=
  ⟨by decide,
   (c4_close_events c4state (Act.wsCloseEv 1000) 1000 1000 true).1 (by decide),
   (c4_close_events c4state (Act.wsCloseEv 1000) 1000 1000 false).2⟩

/-- C5 amended: in every reachable state the reconnect-delay timer
obeys cancel-before-set: at most one is pending and it is the one
tracked by the reconnectTimeout variable (the model owns a single
transport handle, so at most one connection attempt is structural).
The heartbeat-timeout timer does not obey the discipline: a heartbeat
tick appends a fresh heartbeat-timeout timer without cancelling a
previous one, and a state with two pending connection-timeout timers
is reachable when a reconnect is requested while a url resolution is
in flight. -/
theorem c5_timer_discipline (stg : Settings) (s : St) (hr : Reachable stg s) :
    RInvP s
    ∧ (hbTick s).1.pending
        = s.pending ++ [{ id := s.nextId, kind := TimerKind.hbTimeout,
                          delayMs := s.settings.heartbeatTimeout }]
    ∧ Reachable cxSettings connDupState
    ∧ countKind connDupState TimerKind.connTimeout = 2 :=
  ⟨reachable_RInv stg s hr, hbTick_pending s,
   by unfold connDupState; exact reachable_runActs _ _ Reachable.init _,
   by decide⟩

theorem c5_timer_discipline_witness :
    Reachable defaultSettings (init defaultSettings)
    ∧ (RInvP (init defaultSettings)
      ∧ (hbTick (init defaultSettings)).1.pending
          = (init defaultSettings).pending
            ++ [{ id := (init defaultSettings).nextId,
                  kind := TimerKind.hbTimeout,
                  delayMs := (init defaultSettings).settings.heartbeatTimeout }]
      ∧ Reachable cxSettings connDupState
      ∧ countKind connDupState TimerKind.connTimeout = 2) :=
  ⟨Reachable.init,
   c5_timer_discipline defaultSettings (init defaultSettings) Reachable.init⟩

/-- C10: the message buffer is left untouched by cleanup, reconnect and
permanent close; after a permanent close a buffered send still
appends to it, and no action ever drains it (the buffer only ever
grows), since the drain happens only on a successful open, which
cannot occur any more. -/
theorem c10_buffer_persistence (stg : Settings) (s s2 : St) (c c2 c3 : Nat)
    (hr : Reachable stg s) (hc : s.isClosed = true) :
    (cleanup s2 c).1.msgBuffer = s2.msgBuffer
    ∧ (reconnect s2 c2).1.msgBuffer = s2.msgBuffer
    ∧ (close s2 c3).1.msgBuffer = s2.msgBuffer
    ∧ BufferClosedSpec s := by
  have hq := closed_quiet stg s hr hc
  have ho := quiet_isOpen_false s hq
  refine ⟨cleanup_msgBuffer s2 c, reconnect_msgBuffer s2 c2,
    close_msgBuffer s2 c3, ?_⟩
  unfold BufferClosedSpec
  constructor
  · intro hbuf m
    simp [send, ho, hbuf]
  · intro a
    cases a with
    | actSend m =>
      by_cases hbuf : s.settings.messageBuffering
      · exact ⟨[m], by show (send s m).1.msgBuffer = _; simp [send, ho, hbuf]⟩
      · exact ⟨[], by show (send s m).1.msgBuffer = _; simp [send, ho, hbuf]⟩
    | actReconnect c4 =>
      exact ⟨[], by
        show (reconnect s c4).1.msgBuffer = _
        rw [reconnect_msgBuffer]; simp⟩
    | actClose c4 =>
      exact ⟨[], by
        show (close s c4).1.msgBuffer = _
        rw [close_msgBuffer]; simp⟩
    | actIgnorePongs => exact ⟨[], by simp [step, ignorePongs]⟩
    | actOn ev hh => exact ⟨[], by simp [step, emitterOn]⟩
    | fireTimerAct i =>
      refine ⟨[], ?_⟩
      show (fireTimer s i).1.msgBuffer = s.msgBuffer ++ []
      rcases hf : s.pending.find? (fun t => decide (t.id = i)) with _ | t
      · simp [fireTimer, hf]
      · rcases t with ⟨tid, tk, tms⟩
        cases tk with
        | connTimeout =>
          have he : fireTimer s i = onConnTimeout (removeTimer s i) := by
            simp [fireTimer, hf]
          rw [he, onConnTimeout_fst, reconnect_msgBuffer]
          simp [removeTimer]
        | hbTimeout =>
          have he : fireTimer s i = onHbTimeout (removeTimer s i) := by
            simp [fireTimer, hf]
          rw [he, onHbTimeout_fst, reconnect_msgBuffer]
          simp [removeTimer]
        | reconnectTimer =>
          have he : fireTimer s i = (connect (removeTimer s i), []) := by
            simp [fireTimer, hf]
          rw [he]
          simp [connect, removeTimer]
        | hbInterval =>
          have he : fireTimer s i = hbTick s := by simp [fireTimer, hf]
          rw [he, hbTick_msgBuffer]
          simp
    | settleOk =>
      refine ⟨[], ?_⟩
      show (resolveOk s).1.msgBuffer = _
      rw [resolveOk_closed s hc]; simp
    | settleFail =>
      refine ⟨[], ?_⟩
      show (resolveFail s).1.msgBuffer = _
      rw [resolveFail_closed s hc]; simp
    | wsOpenEv =>
      refine ⟨[], ?_⟩
      show (fireWsOpen s).1.msgBuffer = s.msgBuffer ++ []
      rcases hw : s.ws with _ | w
      · simp [fireWsOpen, hw]
      · have hnc : ¬ w.readyState = ReadyState.CONNECTING := by
          have h3 := hq
          simp [wsQuietB, hw] at h3
          exact h3.1.2
        simp [fireWsOpen, hw, hnc]
    | wsMessageEv m =>
      refine ⟨[], ?_⟩
      show (fireWsMessage s m).1.msgBuffer = s.msgBuffer ++ []
      have he : (fireWsMessage s m).1 = s := by
        by_cases hl : wsListening s <;> simp [fireWsMessage, hl, onMessage]
      rw [he]; simp
    | wsPongEv =>
      refine ⟨[], ?_⟩
      show (fireWsPong s).1.msgBuffer = s.msgBuffer ++ []
      by_cases hl : wsListening s
      · by_cases hip : s.shouldIgnorePongs <;>
          simp [fireWsPong, hl, onPong, hip, clearTimer]
      · simp [fireWsPong, hl]
    | wsErrorEv =>
      refine ⟨[], ?_⟩
      show (fireWsError s).1.msgBuffer = s.msgBuffer ++ []
      have he : (fireWsError s).1 = s := by
        by_cases hl : wsListening s <;> simp [fireWsError, hl, onError]
      rw [he]; simp
    | wsCloseEv c4 =>
      refine ⟨[], ?_⟩
      show (fireWsClose s c4).1.msgBuffer = s.msgBuffer ++ []
      rcases hw : s.ws with _ | w
      · simp [fireWsClose, hw]
      · have hl : w.listeners = false := by
          have h3 := hq
          simp [wsQuietB, hw] at h3
          exact h3.1.1
        by_cases hr2 : w.readyState = ReadyState.CLOSED
        · simp [fireWsClose, hw, hr2]
        · simp [fireWsClose, hw, hr2, hl]

theorem c10_buffer_persistence_witness :
    Reachable defaultSettings c10state ∧ c10state.isClosed = true
    ∧ ((cleanup (init defaultSettings) 1000).1.msgBuffer
        = (init defaultSettings).msgBuffer
      ∧ (reconnect (init defaultSettings) 1001).1.msgBuffer
          = (init defaultSettings).msgBuffer
      ∧ (close (init defaultSettings) 1002).1.msgBuffer
          = (init defaultSettings).msgBuffer
      ∧ BufferClosedSpec c10state) :=
  ⟨by unfold c10state; exact reachable_runActs _ _ Reachable.init _,
   by decide,
   c10_buffer_persistence defaultSettings c10state (init defaultSettings)
     1000 1001 1002
     (by unfold c10state; exact reachable_runActs _ _ Reachable.init _)
     (by decide)⟩

end WsReconnect
